import Mathlib

/-!
Verification of docker/service.go: dependency inference and lifecycle sequencing.

A shallow embedding of `src/docker/service.go`.

* Go strings are byte sequences (`GoString`), so that the byte slice
  `info.Name[1:]` means what it means in Go.
* Go `error` values are `Option GoError`, `none` being `nil`.
* The collaborators (the embedded base `*docker.Service`, the containers it
  enumerates and the `dockerclient.Client` made by the client factory) are
  the fields of a `Runtime σ` acting on an abstract world state `σ`.
* Every method returns an `Outcome`: its Go return value, the world it
  leaves behind and the collaborator calls it made, in order.
-/

/-- A Go `string`: an immutable sequence of bytes. -/
abbrev GoString := List UInt8

/-- The bytes (UTF-8) of a string literal of the Go source. -/
def lit (s : String) : GoString := s.toUTF8.data.toList

/-- The verb `%d` of `fmt`: a signed integer in base 10. -/
def fmtInt (n : Int) : GoString := lit (toString n)

/-- Indexing a Go map of strings, `m[k]`: the zero value `""` when the key is absent. -/
def index (m : GoString → Option GoString) (k : GoString) : GoString :=
  (m k).getD []

/-- Indexing a Go map of string slices, `m[k]`: the nil slice when the key is absent. -/
def indexSlice (m : GoString → Option (List GoString)) (k : GoString) : List GoString :=
  (m k).getD []

/-- The Go slice expression `s[i:]` on a string: a run-time panic when `i > len(s)`. -/
def sliceFrom (s : GoString) (i : Nat) : Option GoString :=
  if i ≤ s.length then some (s.drop i) else none

/-- A non-nil Go `error` value.  `ErrRestart` is the package variable
`project.ErrRestart`, `Errorf msg` is a value made by `fmt.Errorf`, and
`other n` stands for any error value made elsewhere. -/
inductive GoError where
  | ErrRestart
  | Errorf (msg : GoString)
  | other (n : Nat)
  deriving DecidableEq, Repr

/-- What evaluating a Go expression gives: a value, or a run-time panic. -/
inductive Ret (α : Type) where
  | value (a : α)
  | panic
  deriving DecidableEq, Repr

namespace project

/-- The relationship kinds of libcompose (`project.ServiceRelationshipType`). -/
inductive ServiceRelationshipType where
  | REL_TYPE_LINK
  | REL_TYPE_NET_NAMESPACE
  | REL_TYPE_IPC_NAMESPACE
  | REL_TYPE_VOLUMES_FROM
  deriving DecidableEq, Repr

/-- Modelled from the spec: `project.ServiceRelationship` is declared in libcompose,
not in service.go.  Spec §3: an edge `(targetServiceName, kind, optional)`; the Go
field `Type` is written `Type_`. -/
structure ServiceRelationship where
  Target : GoString
  Type_ : ServiceRelationshipType
  Optional : Bool
  deriving DecidableEq, Repr

/-- Modelled from the spec: `project.NewServiceRelationship` is declared in libcompose,
not in service.go.  It makes the edge to the named service with the given kind;
`Optional` is left at the zero value `false`. -/
def NewServiceRelationship (name : GoString) (relType : ServiceRelationshipType) :
    ServiceRelationship :=
  { Target := name, Type_ := relType, Optional := false }

/-- The fields of `project.ServiceConfig` that service.go reads.  `Labels` is the
map that `Labels.MapParts()` returns. -/
structure ServiceConfig where
  Image : GoString
  LogDriver : GoString
  Labels : GoString → Option GoString

/-- A `project.Container` enumerated by the base service: a bare handle whose
identifier is asked from the runtime. -/
structure Container where
  handle : Nat
  deriving DecidableEq, Repr

/-- The package variable `project.ErrRestart`. -/
def ErrRestart : GoError := GoError.ErrRestart

end project

namespace dockerclient

/-- The fields of `dockerclient.ContainerInfo` that service.go reads. -/
structure ContainerInfo where
  Id : GoString
  Name : GoString
  deriving DecidableEq, Repr

/-- The `dockerclient.ImageInfo` that `InspectImage` answers; only its being nil
or not is read. -/
structure ImageInfo where
  Id : GoString
  deriving DecidableEq, Repr

/-- The value received from the channel of `client.Wait`. -/
structure WaitResult where
  ExitCode : Int
  Error : Option GoError
  deriving DecidableEq, Repr

end dockerclient

namespace config

/-- The constants of package `config` that service.go names.  Their declarations
are not in service.go, so every definition below takes them as a parameter. -/
structure Constants where
  SCOPE : GoString
  SYSTEM : GoString
  CREATE_ONLY : GoString
  DETACH : GoString
  RELOAD_CONFIG : GoString

end config

namespace docker

open project dockerclient

/-- A call made to a collaborator, as recorded in an `Outcome`. -/
inductive Call where
  | ServiceDependentServices
  | ServiceCreate
  | ServiceUp
  | ServiceContainers
  | Id (c : Container)
  | InspectImage (image : GoString)
  | InspectContainer (id : GoString)
  | RenameContainer (oldName newName : GoString)
  | Wait (id : GoString)
  | Debugf (oldName newName : GoString)
  deriving DecidableEq, Repr

/-- The collaborators of one service over a world state `σ`: the embedded base
service (`s.Service.DependentServices`, `Create`, `Up`, `Containers`), the
identifier of an enumerated container (`Id`), and the client that
`s.context.ClientFactory.Create(s)` makes. -/
structure Runtime (σ : Type) where
  ServiceDependentServices : σ → List ServiceRelationship × σ
  ServiceCreate : σ → Option GoError × σ
  ServiceUp : σ → Option GoError × σ
  ServiceContainers : σ → (List Container × Option GoError) × σ
  Id : Container → σ → (GoString × Option GoError) × σ
  InspectImage : GoString → σ → (Option ImageInfo × Option GoError) × σ
  InspectContainer : GoString → σ → (Option ContainerInfo × Option GoError) × σ
  RenameContainer : GoString → GoString → σ → Option GoError × σ
  Wait : GoString → σ → WaitResult × σ

/-- The result of running a method: the returned value, the world afterwards and
the collaborator calls made, in order. -/
structure Outcome (σ α : Type) where
  ret : α
  world : σ
  calls : List Call

/-- The data of `Service` that service.go reads: `Name()` and `Config()` of the
embedded base service, and the dependency index `deps`. -/
structure Service where
  Name : GoString
  Config : ServiceConfig
  deps : GoString → Option (List GoString)

/-- Go `appendLink`: a LINK relationship to `name` with the given `Optional`, appended. -/
def appendLink (deps : List ServiceRelationship) (name : GoString) (optional : Bool) :
    List ServiceRelationship :=
  let rel := NewServiceRelationship name ServiceRelationshipType.REL_TYPE_LINK
  let rel := { rel with Optional := optional }
  deps ++ [rel]

/-- Go `requiresSyslog`. -/
def requiresSyslog (s : Service) : Bool :=
  decide (s.Config.LogDriver = lit "syslog")

/-- Go `requiresUserDocker`. -/
def requiresUserDocker (cfg : config.Constants) (s : Service) : Bool :=
  decide (index s.Config.Labels cfg.SCOPE ≠ cfg.SYSTEM)

/-- Go `missingImage`. -/
def missingImage {σ : Type} (rt : Runtime σ) (s : Service) (w : σ) : Outcome σ Bool :=
  let image := s.Config.Image
  if image = lit "" then
    { ret := false, world := w, calls := [] }
  else
    match rt.InspectImage s.Config.Image w with
    | ((i, err), w1) =>
      { ret := err.isSome || i.isNone, world := w1,
        calls := [Call.InspectImage s.Config.Image] }

/-- Go `DependentServices`. -/
def DependentServices {σ : Type} (rt : Runtime σ) (cfg : config.Constants) (s : Service)
    (w : σ) : Outcome σ (List ServiceRelationship) :=
  match rt.ServiceDependentServices w with
  | (base, w0) =>
    let rels := (indexSlice s.deps s.Name).foldl (fun rels dep => appendLink rels dep true) base
    let rels := if requiresSyslog s then appendLink rels (lit "syslog") false else rels
    if requiresUserDocker cfg s then
      { ret := appendLink rels (lit "cloud-init") false, world := w0,
        calls := [Call.ServiceDependentServices] }
    else
      let m := missingImage rt s w0
      if m.ret then
        { ret := appendLink rels (lit "network") false, world := m.world,
          calls := Call.ServiceDependentServices :: m.calls }
      else
        { ret := rels, world := m.world, calls := Call.ServiceDependentServices :: m.calls }

/-- Go `checkReload`. -/
def checkReload (cfg : config.Constants) (labels : GoString → Option GoString) :
    Option GoError :=
  if index labels cfg.RELOAD_CONFIG = lit "true" then some ErrRestart else none

/-- Go `getContainer`.  The returned client is the runtime itself, so only
`(info, err)` is returned. -/
def getContainer {σ : Type} (rt : Runtime σ) (w : σ) :
    Outcome σ (Option ContainerInfo × Option GoError) :=
  match rt.ServiceContainers w with
  | ((containers, err), w1) =>
    match err with
    | some e => { ret := (none, some e), world := w1, calls := [Call.ServiceContainers] }
    | none =>
      match containers with
      | [] => { ret := (none, none), world := w1, calls := [Call.ServiceContainers] }
      | c :: _ =>
        match rt.Id c w1 with
        | ((id, err), w2) =>
          match err with
          | some e =>
            { ret := (none, some e), world := w2,
              calls := [Call.ServiceContainers, Call.Id c] }
          | none =>
            match rt.InspectContainer id w2 with
            | ((info, err), w3) =>
              { ret := (info, err), world := w3,
                calls := [Call.ServiceContainers, Call.Id c, Call.InspectContainer id] }

/-- Go `wait`. -/
def wait {σ : Type} (rt : Runtime σ) (w : σ) : Outcome σ (Option GoError) :=
  let g := getContainer rt w
  match g.ret with
  | (_, some err) => { ret := some err, world := g.world, calls := g.calls }
  | (none, none) => { ret := none, world := g.world, calls := g.calls }
  | (some info, none) =>
    match rt.Wait info.Id g.world with
    | (status, w1) =>
      let calls := g.calls ++ [Call.Wait info.Id]
      match status.Error with
      | some e => { ret := some e, world := w1, calls := calls }
      | none =>
        if status.ExitCode = 0 then
          { ret := none, world := w1, calls := calls }
        else
          { ret := some (GoError.Errorf (lit "ExitCode " ++ fmtInt status.ExitCode)),
            world := w1, calls := calls }

/-- Go `rename`.  The slice `info.Name[1:]` is evaluated once; its two further
occurrences slice the same string at the same index. -/
def rename {σ : Type} (rt : Runtime σ) (s : Service) (w : σ) :
    Outcome σ (Ret (Option GoError)) :=
  let g := getContainer rt w
  match g.ret with
  | (_, some err) => { ret := Ret.value (some err), world := g.world, calls := g.calls }
  | (none, none) => { ret := Ret.value none, world := g.world, calls := g.calls }
  | (some info, none) =>
    if info.Name.length > 0 then
      match sliceFrom info.Name 1 with
      | none => { ret := Ret.panic, world := g.world, calls := g.calls }
      | some name1 =>
        if name1 ≠ s.Name then
          match rt.RenameContainer name1 s.Name g.world with
          | (err, w1) =>
            { ret := Ret.value err, world := w1,
              calls := g.calls ++ [Call.Debugf name1 s.Name, Call.RenameContainer name1 s.Name] }
        else
          { ret := Ret.value none, world := g.world, calls := g.calls }
    else
      { ret := Ret.value none, world := g.world, calls := g.calls }

/-- Go `Up`. -/
def Up {σ : Type} (rt : Runtime σ) (cfg : config.Constants) (s : Service) (w : σ) :
    Outcome σ (Ret (Option GoError)) :=
  let labels := s.Config.Labels
  match rt.ServiceCreate w with
  | (some err, w1) => { ret := Ret.value (some err), world := w1, calls := [Call.ServiceCreate] }
  | (none, w1) =>
    let r := rename rt s w1
    match r.ret with
    | Ret.panic => { ret := Ret.panic, world := r.world, calls := Call.ServiceCreate :: r.calls }
    | Ret.value (some err) =>
      { ret := Ret.value (some err), world := r.world, calls := Call.ServiceCreate :: r.calls }
    | Ret.value none =>
      if index labels cfg.CREATE_ONLY = lit "true" then
        { ret := Ret.value (checkReload cfg labels), world := r.world,
          calls := Call.ServiceCreate :: r.calls }
      else
        match rt.ServiceUp r.world with
        | (some err, w3) =>
          { ret := Ret.value (some err), world := w3,
            calls := Call.ServiceCreate :: r.calls ++ [Call.ServiceUp] }
        | (none, w3) =>
          if index labels cfg.DETACH = lit "false" then
            let t := wait rt w3
            match t.ret with
            | some err =>
              { ret := Ret.value (some err), world := t.world,
                calls := Call.ServiceCreate :: r.calls ++ [Call.ServiceUp] ++ t.calls }
            | none =>
              { ret := Ret.value (checkReload cfg labels), world := t.world,
                calls := Call.ServiceCreate :: r.calls ++ [Call.ServiceUp] ++ t.calls }
          else
            { ret := Ret.value (checkReload cfg labels), world := w3,
              calls := Call.ServiceCreate :: r.calls ++ [Call.ServiceUp] }

/-- Go `Create`. -/
def Create {σ : Type} (rt : Runtime σ) (s : Service) (w : σ) :
    Outcome σ (Ret (Option GoError)) :=
  match rt.ServiceCreate w with
  | (some err, w1) => { ret := Ret.value (some err), world := w1, calls := [Call.ServiceCreate] }
  | (none, w1) =>
    let r := rename rt s w1
    { ret := r.ret, world := r.world, calls := Call.ServiceCreate :: r.calls }

/-! ## Helper definitions and sample inputs -/

/-- The relationship that `appendLink` appends for `name` and `optional`. -/
def link (name : GoString) (optional : Bool) : ServiceRelationship :=
  { NewServiceRelationship name ServiceRelationshipType.REL_TYPE_LINK with Optional := optional }

/-- The relationships that `DependentServices` returns after the base list: the
returned list without its first `len(base)` elements. -/
def appended {σ : Type} (rt : Runtime σ) (cfg : config.Constants) (s : Service) (w : σ) :
    List ServiceRelationship :=
  (DependentServices rt cfg s w).ret.drop (rt.ServiceDependentServices w).1.length

/-- A Go map literal. -/
def mapOf {α : Type} (kvs : List (GoString × α)) : GoString → Option α :=
  fun k => kvs.lookup k

/-- Sample values for the constants of package `config`. -/
def sampleConstants : config.Constants :=
  { SCOPE := lit "io.rancher.os.scope", SYSTEM := lit "system",
    CREATE_ONLY := lit "io.rancher.os.createonly", DETACH := lit "io.rancher.os.detach",
    RELOAD_CONFIG := lit "io.rancher.os.reloadconfig" }

/-- The fixed answers of a sample runtime, one per collaborator call. -/
structure Script where
  base : List ServiceRelationship
  create : Option GoError
  up : Option GoError
  containers : List Container × Option GoError
  id : GoString × Option GoError
  image : Option ImageInfo × Option GoError
  info : Option ContainerInfo × Option GoError
  renamed : Option GoError
  status : WaitResult

/-- The sample runtime that answers as the script says; its world counts the calls made. -/
def scripted (sc : Script) : Runtime Nat :=
  { ServiceDependentServices := fun w => (sc.base, w + 1)
    ServiceCreate := fun w => (sc.create, w + 1)
    ServiceUp := fun w => (sc.up, w + 1)
    ServiceContainers := fun w => (sc.containers, w + 1)
    Id := fun _ w => (sc.id, w + 1)
    InspectImage := fun _ w => (sc.image, w + 1)
    InspectContainer := fun _ w => (sc.info, w + 1)
    RenameContainer := fun _ _ w => (sc.renamed, w + 1)
    Wait := fun _ w => (sc.status, w + 1) }

/-- A script in which every call succeeds: the image is present, and the one
container, `c1`, is named `/web` and exits with code 0. -/
def allGood : Script :=
  { base := [{ Target := lit "console", Type_ := ServiceRelationshipType.REL_TYPE_VOLUMES_FROM,
               Optional := false }]
    create := none
    up := none
    containers := ([{ handle := 1 }], none)
    id := (lit "c1", none)
    image := (some { Id := lit "sha256:1" }, none)
    info := (some { Id := lit "c1", Name := lit "/web" }, none)
    renamed := none
    status := { ExitCode := 0, Error := none } }

/-- The script `allGood` with no image in the store. -/
def noImage : Script := { allGood with image := (none, none) }

/-- A sample service named `web`. -/
def web (image logDriver : String) (labels : List (GoString × GoString))
    (declared : List GoString) : Service :=
  { Name := lit "web"
    Config := { Image := lit image, LogDriver := lit logDriver, Labels := mapOf labels }
    deps := mapOf [(lit "web", declared)] }

/-- The label map of a system-scoped service (for `sampleConstants`). -/
def systemScope : List (GoString × GoString) :=
  [(lit "io.rancher.os.scope", lit "system")]

/-- The labels of a service that is only created, and would be waited for if started. -/
def createOnlyLabels : List (GoString × GoString) :=
  [(lit "io.rancher.os.createonly", lit "true"), (lit "io.rancher.os.detach", lit "false")]

/-- The labels of a service that is waited for. -/
def waitLabels : List (GoString × GoString) :=
  [(lit "io.rancher.os.detach", lit "false")]

/-- The labels of a service that is waited for and asks for a reload. -/
def waitReloadLabels : List (GoString × GoString) :=
  [(lit "io.rancher.os.detach", lit "false"), (lit "io.rancher.os.reloadconfig", lit "true")]

/-- The script `allGood` whose container exits with code 2. -/
def exitsTwo : Script := { allGood with status := { ExitCode := 2, Error := none } }

/-- The script `allGood` whose base create fails. -/
def createFails : Script := { allGood with create := some (GoError.other 1) }

/-- The script `allGood` whose container is named `/old_web_1` and cannot be renamed. -/
def renameFails : Script :=
  { allGood with
    info := (some { Id := lit "c1", Name := lit "/old_web_1" }, none)
    renamed := some (GoError.other 2) }

/-- The script `allGood` whose base start fails. -/
def startFails : Script := { allGood with up := some (GoError.other 3) }

/-- The script `allGood` whose base create fails with the error `project.ErrRestart`. -/
def createRestarts : Script := { allGood with create := some project.ErrRestart }

/-- The script `allGood` whose exit notification carries the error `project.ErrRestart`. -/
def waitRestarts : Script :=
  { allGood with status := { ExitCode := -1, Error := some project.ErrRestart } }

/-- A sample runtime whose world is the inspected name of its one container, `c1`.
Every call succeeds; a rename makes the inspected name `/` followed by the new name,
and no other call changes it. -/
def daemon : Runtime GoString :=
  { ServiceDependentServices := fun w => ([], w)
    ServiceCreate := fun w => (none, w)
    ServiceUp := fun w => (none, w)
    ServiceContainers := fun w => (([{ handle := 1 }], none), w)
    Id := fun _ w => ((lit "c1", none), w)
    InspectImage := fun _ w => ((none, none), w)
    InspectContainer := fun id w => ((some { Id := id, Name := w }, none), w)
    RenameContainer := fun _ newName _ => (none, 47 :: newName)
    Wait := fun _ w => ({ ExitCode := 0, Error := none }, w) }

/-- A runtime in which a successful rename makes the inspected name of the container the
separator `sep` followed by the new name, and in which nothing else changes the container:
enumerating and inspecting it, and base create, leave what an inspection shows as it is. -/
structure Converges {σ : Type} (rt : Runtime σ) (sep : UInt8) : Prop where
  reads : ∀ w, (getContainer rt (getContainer rt w).world).ret = (getContainer rt w).ret
  create : ∀ w info, (getContainer rt w).ret = (some info, none) →
    (getContainer rt (rt.ServiceCreate w).2).ret = (some info, none)
  renamed : ∀ w info oldName newName, (getContainer rt w).ret = (some info, none) →
    (rt.RenameContainer oldName newName w).1 = none →
    (getContainer rt (rt.RenameContainer oldName newName w).2).ret
      = (some { info with Name := sep :: newName }, none)

/-- The script `allGood` with no container. -/
def noContainer : Script := { allGood with containers := ([], none) }

/-- The script `allGood` whose container is the stale `/old_web_1`. -/
def staleName : Script :=
  { allGood with info := (some { Id := lit "c1", Name := lit "/old_web_1" }, none) }

/-- The script `allGood` whose container has the name given. -/
def named (name : String) : Script :=
  { allGood with info := (some { Id := lit "c1", Name := lit name }, none) }

/-- Following the words of the spec (§4.2), not the code: the runtime name with the single
leading separator `/` that container names conventionally carry stripped. -/
def specStripSeparator (name : GoString) : GoString :=
  match name with
  | 47 :: rest => rest
  | _ => name

/-- The script `allGood` whose enumeration of the containers fails. -/
def enumerationFails : Script := { allGood with containers := ([], some (GoError.other 4)) }

/-- The script `allGood` in which the identifier of the container cannot be had. -/
def idFails : Script := { allGood with id := (lit "", some (GoError.other 5)) }

/-- The script `allGood` whose inspection of the container fails. -/
def inspectFails : Script := { allGood with info := (none, some (GoError.other 6)) }

/-! ## Dependency inference: `DependentServices` -/

theorem foldl_appendLink (o : Bool) (deps : List GoString) (base : List ServiceRelationship) :
    deps.foldl (fun rels dep => appendLink rels dep o) base
      = base ++ deps.map (fun dep => link dep o) := by
  induction deps generalizing base with
  | nil => simp
  | cons d ds ih =>
    simp only [List.foldl_cons, List.map_cons, ih]
    simp [appendLink, link]

theorem DependentServices_ret {σ : Type} (rt : Runtime σ) (cfg : config.Constants)
    (s : Service) (w : σ) :
    (DependentServices rt cfg s w).ret
      = (rt.ServiceDependentServices w).1
        ++ ((indexSlice s.deps s.Name).map (fun dep => link dep true)
        ++ ((if requiresSyslog s then [link (lit "syslog") false] else [])
        ++ (if requiresUserDocker cfg s then [link (lit "cloud-init") false]
            else if (missingImage rt s (rt.ServiceDependentServices w).2).ret
              then [link (lit "network") false] else []))) := by
  unfold DependentServices
  simp only [foldl_appendLink]
  cases hs : requiresSyslog s <;> cases hu : requiresUserDocker cfg s <;>
    cases hm : (missingImage rt s (rt.ServiceDependentServices w).2).ret <;>
    simp [appendLink, link, hm]

theorem appended_eq {σ : Type} (rt : Runtime σ) (cfg : config.Constants)
    (s : Service) (w : σ) :
    appended rt cfg s w
      = (indexSlice s.deps s.Name).map (fun dep => link dep true)
        ++ ((if requiresSyslog s then [link (lit "syslog") false] else [])
        ++ (if requiresUserDocker cfg s then [link (lit "cloud-init") false]
            else if (missingImage rt s (rt.ServiceDependentServices w).2).ret
              then [link (lit "network") false] else [])) := by
  unfold appended
  rw [DependentServices_ret]
  simp

theorem filter_declared (p : ServiceRelationship → Bool) (deps : List GoString)
    (hp : ∀ dep, p (link dep true) = false) :
    (deps.map (fun dep => link dep true)).filter p = [] := by
  induction deps with
  | nil => rfl
  | cons d ds ih => simp [List.filter_cons, hp d, ih]

theorem syslog_ne_cloud_init : lit "syslog" ≠ lit "cloud-init" := by decide

theorem syslog_ne_network : lit "syslog" ≠ lit "network" := by decide

theorem cloud_init_ne_network : lit "cloud-init" ≠ lit "network" := by decide

theorem missingImage_true {σ : Type} (rt : Runtime σ) (s : Service) (w : σ)
    (hi : s.Config.Image ≠ lit "")
    (hm : (rt.InspectImage s.Config.Image w).1.2 ≠ none
      ∨ (rt.InspectImage s.Config.Image w).1.1 = none) :
    (missingImage rt s w).ret = true := by
  unfold missingImage
  rw [if_neg hi]
  revert hm
  generalize rt.InspectImage s.Config.Image w = r
  rcases r with ⟨⟨i, err⟩, w1⟩
  intro hm
  cases err <;> cases i <;> simp_all

theorem missingImage_false {σ : Type} (rt : Runtime σ) (s : Service) (w : σ)
    (i : ImageInfo) (hm : (rt.InspectImage s.Config.Image w).1 = (some i, none)) :
    (missingImage rt s w).ret = false := by
  unfold missingImage
  by_cases hi : s.Config.Image = lit ""
  · rw [if_pos hi]
  · rw [if_neg hi]
    revert hm
    generalize rt.InspectImage s.Config.Image w = r
    rcases r with ⟨⟨j, err⟩, w1⟩
    intro hm
    simp only [Prod.mk.injEq] at hm
    simp [hm.1, hm.2]

/-- C1 (counterexample): the service `web` declares the dependency `db`; the relationship
that `DependentServices` appends for it has `Optional = true`, so it is not marked required. -/
theorem declared_dependency_not_required :
    appended (scripted allGood) sampleConstants (web "" "" systemScope [lit "db"]) 0
        = [{ Target := lit "db", Type_ := ServiceRelationshipType.REL_TYPE_LINK,
             Optional := true }]
      ∧ ¬ (∀ r ∈ (appended (scripted allGood) sampleConstants
              (web "" "" systemScope [lit "db"]) 0).take
              (indexSlice (web "" "" systemScope [lit "db"]).deps
                (web "" "" systemScope [lit "db"]).Name).length,
            r.Optional = false) := by
  decide

/-- C1 (amended): for every service and every dependency index, the relationships that
`DependentServices` appends right after the base list are, in order, one LINK relationship
per name of `deps[Name()]`, and each of them is marked optional (`Optional = true`). -/
theorem DependentServices_declared_optional {σ : Type} (rt : Runtime σ)
    (cfg : config.Constants) (s : Service) (w : σ) :
    (appended rt cfg s w).take (indexSlice s.deps s.Name).length
        = (indexSlice s.deps s.Name).map (fun dep =>
            { NewServiceRelationship dep ServiceRelationshipType.REL_TYPE_LINK
              with Optional := true })
      ∧ ∀ r ∈ (appended rt cfg s w).take (indexSlice s.deps s.Name).length,
          r.Optional = true ∧ r.Type_ = ServiceRelationshipType.REL_TYPE_LINK := by
  have h : (appended rt cfg s w).take (indexSlice s.deps s.Name).length
      = (indexSlice s.deps s.Name).map (fun dep => link dep true) := by
    rw [appended_eq, List.take_append_eq_append_take]
    simp
  refine ⟨h, ?_⟩
  rw [h]
  intro r hr
  rcases List.mem_map.1 hr with ⟨dep, _, rfl⟩
  exact ⟨rfl, rfl⟩

/-- C2: for every service with an empty declared-dependency list, a log driver other than
`syslog`, a scope label equal to the system value and an image that `InspectImage` finds
(no error, non-nil result), `DependentServices` returns exactly the base list. -/
theorem DependentServices_base_only {σ : Type} (rt : Runtime σ) (cfg : config.Constants)
    (s : Service) (w : σ) (i : ImageInfo)
    (hd : indexSlice s.deps s.Name = [])
    (hl : s.Config.LogDriver ≠ lit "syslog")
    (hs : index s.Config.Labels cfg.SCOPE = cfg.SYSTEM)
    (hi : (rt.InspectImage s.Config.Image (rt.ServiceDependentServices w).2).1
            = (some i, none)) :
    (DependentServices rt cfg s w).ret = (rt.ServiceDependentServices w).1 := by
  rw [DependentServices_ret, hd, missingImage_false rt s _ i hi]
  simp [requiresSyslog, requiresUserDocker, hl, hs]

/-- C2 (witness): `web`, no declared dependency, log driver `json-file`, system scope,
image `busybox` present. -/
theorem DependentServices_base_only_witness :
    (DependentServices (scripted allGood) sampleConstants
        (web "busybox" "json-file" systemScope []) 0).ret
      = [{ Target := lit "console", Type_ := ServiceRelationshipType.REL_TYPE_VOLUMES_FROM,
           Optional := false }] :=
  DependentServices_base_only (scripted allGood) sampleConstants
    (web "busybox" "json-file" systemScope []) 0 { Id := lit "sha256:1" }
    (by decide) (by decide) (by decide) (by decide)

/-- C3 (counterexample): `web` has no scope label (user scope), declares the dependency
`network`, and its image is missing.  The `cloud-init` relationship appended is not
optional, so no optional `cloud-init` relationship is appended; and a relationship named
`network` is appended, the one of the declared dependency. -/
theorem user_scope_counterexample :
    appended (scripted noImage) sampleConstants (web "busybox" "" [] [lit "network"]) 0
        = [{ Target := lit "network", Type_ := ServiceRelationshipType.REL_TYPE_LINK,
             Optional := true },
           { Target := lit "cloud-init", Type_ := ServiceRelationshipType.REL_TYPE_LINK,
             Optional := false }]
      ∧ ((appended (scripted noImage) sampleConstants
            (web "busybox" "" [] [lit "network"]) 0).filter
          (fun r => decide (r.Target = lit "cloud-init"
            ∧ r.Type_ = ServiceRelationshipType.REL_TYPE_LINK ∧ r.Optional = true))).length
          ≠ 1
      ∧ ∃ r ∈ appended (scripted noImage) sampleConstants
            (web "busybox" "" [] [lit "network"]) 0, r.Target = lit "network" := by
  decide

/-- C3 (amended): for every service whose scope label, read as Go reads a map (the empty
string when absent), differs from the system value, `DependentServices` appends exactly one
non-optional relationship named `cloud-init`, of kind LINK, and no non-optional relationship
named `network`; it does not look the image up.  What it appends is the optional
relationships of the declared dependencies, the `syslog` relationship if the log driver is
`syslog`, and the `cloud-init` relationship. -/
theorem DependentServices_user_scope {σ : Type} (rt : Runtime σ) (cfg : config.Constants)
    (s : Service) (w : σ) (hu : index s.Config.Labels cfg.SCOPE ≠ cfg.SYSTEM) :
    appended rt cfg s w
        = (indexSlice s.deps s.Name).map (fun dep =>
            { Target := dep, Type_ := ServiceRelationshipType.REL_TYPE_LINK, Optional := true })
          ++ ((if s.Config.LogDriver = lit "syslog" then
                [{ Target := lit "syslog", Type_ := ServiceRelationshipType.REL_TYPE_LINK,
                   Optional := false }] else [])
          ++ [{ Target := lit "cloud-init", Type_ := ServiceRelationshipType.REL_TYPE_LINK,
                Optional := false }])
      ∧ (appended rt cfg s w).filter
          (fun r => decide (r.Target = lit "cloud-init" ∧ r.Optional = false))
        = [{ Target := lit "cloud-init", Type_ := ServiceRelationshipType.REL_TYPE_LINK,
             Optional := false }]
      ∧ (appended rt cfg s w).filter
          (fun r => decide (r.Target = lit "network" ∧ r.Optional = false)) = []
      ∧ (DependentServices rt cfg s w).calls = [Call.ServiceDependentServices] := by
  have hu2 : requiresUserDocker cfg s = true := by simp [requiresUserDocker, hu]
  have hshape : appended rt cfg s w
        = (indexSlice s.deps s.Name).map (fun dep => link dep true)
          ++ ((if s.Config.LogDriver = lit "syslog" then [link (lit "syslog") false] else [])
          ++ [link (lit "cloud-init") false]) := by
    rw [appended_eq, hu2]; simp [requiresSyslog]
  refine ⟨hshape, ?_, ?_, ?_⟩
  · rw [hshape, List.filter_append, filter_declared _ _ (by intro dep; simp [link])]
    by_cases hs : s.Config.LogDriver = lit "syslog" <;>
      simp [hs, link, NewServiceRelationship, List.filter_cons, syslog_ne_cloud_init]
  · rw [hshape, List.filter_append, filter_declared _ _ (by intro dep; simp [link])]
    by_cases hs : s.Config.LogDriver = lit "syslog" <;>
      simp [hs, link, NewServiceRelationship, List.filter_cons, syslog_ne_network,
        cloud_init_ne_network]
  · unfold DependentServices
    simp [hu2]

/-- C3 (witness): `web` without a scope label, log driver `syslog`, one declared
dependency, image missing. -/
theorem DependentServices_user_scope_witness :
    index (web "busybox" "syslog" [] [lit "db"]).Config.Labels sampleConstants.SCOPE
        ≠ sampleConstants.SYSTEM
      ∧ (appended (scripted noImage) sampleConstants
            (web "busybox" "syslog" [] [lit "db"]) 0).filter
          (fun r => decide (r.Target = lit "cloud-init" ∧ r.Optional = false))
        = [{ Target := lit "cloud-init", Type_ := ServiceRelationshipType.REL_TYPE_LINK,
             Optional := false }] :=
  ⟨by decide,
   (DependentServices_user_scope (scripted noImage) sampleConstants
      (web "busybox" "syslog" [] [lit "db"]) 0 (by decide)).2.1⟩

/-- C4 (counterexample): two system-scoped services whose image the store does not have.
The first has the empty image reference: nothing is appended.  The second has the image
`busybox` and declares the dependency `cloud-init`: the `network` relationship appended is
not optional, and a `cloud-init` relationship is appended. -/
theorem missing_image_counterexample :
    ((scripted noImage).InspectImage (web "" "" systemScope []).Config.Image 1).1.1 = none
      ∧ appended (scripted noImage) sampleConstants (web "" "" systemScope []) 0 = []
      ∧ appended (scripted noImage) sampleConstants
          (web "busybox" "" systemScope [lit "cloud-init"]) 0
        = [{ Target := lit "cloud-init", Type_ := ServiceRelationshipType.REL_TYPE_LINK,
             Optional := true },
           { Target := lit "network", Type_ := ServiceRelationshipType.REL_TYPE_LINK,
             Optional := false }]
      ∧ ((appended (scripted noImage) sampleConstants
            (web "busybox" "" systemScope [lit "cloud-init"]) 0).filter
          (fun r => decide (r.Target = lit "network"
            ∧ r.Type_ = ServiceRelationshipType.REL_TYPE_LINK ∧ r.Optional = true))).length
          ≠ 1 := by
  decide

/-- C4 (amended): for every system-scoped service whose image reference is not empty and
whose image lookup answers an error or nil, `DependentServices` appends exactly one
non-optional relationship named `network`, of kind LINK, and no non-optional relationship
named `cloud-init`.  What it appends is the optional relationships of the declared
dependencies, the `syslog` relationship if the log driver is `syslog`, and the `network`
relationship. -/
theorem DependentServices_missing_image {σ : Type} (rt : Runtime σ) (cfg : config.Constants)
    (s : Service) (w : σ)
    (hs : index s.Config.Labels cfg.SCOPE = cfg.SYSTEM)
    (hi : s.Config.Image ≠ lit "")
    (hm : (rt.InspectImage s.Config.Image (rt.ServiceDependentServices w).2).1.2 ≠ none
      ∨ (rt.InspectImage s.Config.Image (rt.ServiceDependentServices w).2).1.1 = none) :
    appended rt cfg s w
        = (indexSlice s.deps s.Name).map (fun dep =>
            { Target := dep, Type_ := ServiceRelationshipType.REL_TYPE_LINK, Optional := true })
          ++ ((if s.Config.LogDriver = lit "syslog" then
                [{ Target := lit "syslog", Type_ := ServiceRelationshipType.REL_TYPE_LINK,
                   Optional := false }] else [])
          ++ [{ Target := lit "network", Type_ := ServiceRelationshipType.REL_TYPE_LINK,
                Optional := false }])
      ∧ (appended rt cfg s w).filter
          (fun r => decide (r.Target = lit "network" ∧ r.Optional = false))
        = [{ Target := lit "network", Type_ := ServiceRelationshipType.REL_TYPE_LINK,
             Optional := false }]
      ∧ (appended rt cfg s w).filter
          (fun r => decide (r.Target = lit "cloud-init" ∧ r.Optional = false)) = [] := by
  have hu2 : requiresUserDocker cfg s = false := by simp [requiresUserDocker, hs]
  have hshape : appended rt cfg s w
        = (indexSlice s.deps s.Name).map (fun dep => link dep true)
          ++ ((if s.Config.LogDriver = lit "syslog" then [link (lit "syslog") false] else [])
          ++ [link (lit "network") false]) := by
    rw [appended_eq, hu2, missingImage_true rt s _ hi hm]; simp [requiresSyslog]
  refine ⟨hshape, ?_, ?_⟩
  · rw [hshape, List.filter_append, filter_declared _ _ (by intro dep; simp [link])]
    by_cases hl : s.Config.LogDriver = lit "syslog" <;>
      simp [hl, link, NewServiceRelationship, List.filter_cons, syslog_ne_network]
  · rw [hshape, List.filter_append, filter_declared _ _ (by intro dep; simp [link])]
    by_cases hl : s.Config.LogDriver = lit "syslog" <;>
      simp [hl, link, NewServiceRelationship, List.filter_cons, syslog_ne_cloud_init,
        cloud_init_ne_network.symm]

/-- C4 (witness): `web`, system scope, image `busybox` absent from the store. -/
theorem DependentServices_missing_image_witness :
    (web "busybox" "" systemScope []).Config.Image ≠ lit ""
      ∧ (appended (scripted noImage) sampleConstants
            (web "busybox" "" systemScope []) 0).filter
          (fun r => decide (r.Target = lit "network" ∧ r.Optional = false))
        = [{ Target := lit "network", Type_ := ServiceRelationshipType.REL_TYPE_LINK,
             Optional := false }] :=
  ⟨by decide,
   (DependentServices_missing_image (scripted noImage) sampleConstants
      (web "busybox" "" systemScope []) 0 (by decide) (by decide) (by decide)).2.1⟩

/-- C5 (counterexample): `web` has the log driver `syslog` and no declared dependency.
The one relationship appended is named `syslog` and is not optional, so the number of
optional LINK relationships named `syslog` that are appended is 0, not 1. -/
theorem syslog_counterexample :
    appended (scripted allGood) sampleConstants (web "" "syslog" systemScope []) 0
        = [{ Target := lit "syslog", Type_ := ServiceRelationshipType.REL_TYPE_LINK,
             Optional := false }]
      ∧ ((appended (scripted allGood) sampleConstants
            (web "" "syslog" systemScope []) 0).filter
          (fun r => decide (r.Target = lit "syslog"
            ∧ r.Type_ = ServiceRelationshipType.REL_TYPE_LINK ∧ r.Optional = true))).length
          ≠ 1 := by
  decide

/-- C5 (amended): for every service, whatever its scope label and its image, the
non-optional relationships named `syslog` that `DependentServices` appends are exactly one
LINK relationship when the log driver is exactly `syslog`, and none when it is any other
string.  The relationship sits between the optional relationships of the declared
dependencies and the `cloud-init` or `network` relationship. -/
theorem DependentServices_syslog {σ : Type} (rt : Runtime σ) (cfg : config.Constants)
    (s : Service) (w : σ) :
    (appended rt cfg s w).filter
          (fun r => decide (r.Target = lit "syslog" ∧ r.Optional = false))
        = (if s.Config.LogDriver = lit "syslog" then
            [{ Target := lit "syslog", Type_ := ServiceRelationshipType.REL_TYPE_LINK,
               Optional := false }] else [])
      ∧ appended rt cfg s w
        = (indexSlice s.deps s.Name).map (fun dep =>
            { Target := dep, Type_ := ServiceRelationshipType.REL_TYPE_LINK, Optional := true })
          ++ ((if s.Config.LogDriver = lit "syslog" then
                [{ Target := lit "syslog", Type_ := ServiceRelationshipType.REL_TYPE_LINK,
                   Optional := false }] else [])
          ++ (if index s.Config.Labels cfg.SCOPE ≠ cfg.SYSTEM then
                [{ Target := lit "cloud-init", Type_ := ServiceRelationshipType.REL_TYPE_LINK,
                   Optional := false }]
              else if (missingImage rt s (rt.ServiceDependentServices w).2).ret then
                [{ Target := lit "network", Type_ := ServiceRelationshipType.REL_TYPE_LINK,
                   Optional := false }]
              else [])) := by
  have hshape : appended rt cfg s w
        = (indexSlice s.deps s.Name).map (fun dep => link dep true)
          ++ ((if s.Config.LogDriver = lit "syslog" then [link (lit "syslog") false] else [])
          ++ (if index s.Config.Labels cfg.SCOPE ≠ cfg.SYSTEM then
                [link (lit "cloud-init") false]
              else if (missingImage rt s (rt.ServiceDependentServices w).2).ret then
                [link (lit "network") false]
              else [])) := by
    rw [appended_eq]; simp [requiresSyslog, requiresUserDocker]
  refine ⟨?_, hshape⟩
  rw [hshape, List.filter_append, filter_declared _ _ (by intro dep; simp [link])]
  by_cases hl : s.Config.LogDriver = lit "syslog" <;>
    by_cases hu : index s.Config.Labels cfg.SCOPE = cfg.SYSTEM <;>
    cases hm : (missingImage rt s (rt.ServiceDependentServices w).2).ret <;>
    simp [hl, hu, link, NewServiceRelationship, List.filter_cons,
      syslog_ne_cloud_init.symm, syslog_ne_network.symm]

/-- C6: for every service, the list that `DependentServices` returns is the base list,
then one relationship per declared dependency name in the order of `deps[Name()]`, then
the `syslog` relationship if the log driver is `syslog`, then `cloud-init` if the service
is user-scoped, else `network` if the image is missing, else nothing (never both); every
relationship after the base list has kind LINK, and the length of the result is at most
`len(base) + len(deps[Name()]) + 2`. -/
theorem DependentServices_shape {σ : Type} (rt : Runtime σ) (cfg : config.Constants)
    (s : Service) (w : σ) :
    (DependentServices rt cfg s w).ret
        = (rt.ServiceDependentServices w).1
          ++ ((indexSlice s.deps s.Name).map (fun dep =>
            { Target := dep, Type_ := ServiceRelationshipType.REL_TYPE_LINK, Optional := true })
          ++ ((if s.Config.LogDriver = lit "syslog" then
                [{ Target := lit "syslog", Type_ := ServiceRelationshipType.REL_TYPE_LINK,
                   Optional := false }] else [])
          ++ (if index s.Config.Labels cfg.SCOPE ≠ cfg.SYSTEM then
                [{ Target := lit "cloud-init", Type_ := ServiceRelationshipType.REL_TYPE_LINK,
                   Optional := false }]
              else if (missingImage rt s (rt.ServiceDependentServices w).2).ret then
                [{ Target := lit "network", Type_ := ServiceRelationshipType.REL_TYPE_LINK,
                   Optional := false }]
              else [])))
      ∧ (∀ r ∈ (DependentServices rt cfg s w).ret.drop (rt.ServiceDependentServices w).1.length,
          r.Type_ = ServiceRelationshipType.REL_TYPE_LINK)
      ∧ (DependentServices rt cfg s w).ret.length
          ≤ (rt.ServiceDependentServices w).1.length + (indexSlice s.deps s.Name).length + 2 := by
  have hret := DependentServices_ret rt cfg s w
  refine ⟨?_, ?_, ?_⟩
  · rw [hret]; simp [requiresSyslog, requiresUserDocker, link, NewServiceRelationship]
  · intro r hr
    have ha := appended_eq rt cfg s w
    unfold appended at ha
    rw [ha] at hr
    simp only [List.mem_append, List.mem_map] at hr
    rcases hr with ⟨dep, _, rfl⟩ | hr | hr
    · rfl
    · split at hr
      · simp only [List.mem_singleton] at hr; subst hr; rfl
      · simp at hr
    · split at hr
      · simp only [List.mem_singleton] at hr; subst hr; rfl
      · split at hr
        · simp only [List.mem_singleton] at hr; subst hr; rfl
        · simp at hr
  · rw [hret]
    simp only [List.length_append, List.length_map]
    have h1 : (if requiresSyslog s then [link (lit "syslog") false] else []).length ≤ 1 := by
      split <;> simp
    have h2 : (if requiresUserDocker cfg s then [link (lit "cloud-init") false]
            else if (missingImage rt s (rt.ServiceDependentServices w).2).ret
              then [link (lit "network") false] else []).length ≤ 1 := by
      split
      · simp
      · split <;> simp
    omega

/-! ## Lifecycle sequencing: `Up` -/

theorem getContainer_calls {σ : Type} (rt : Runtime σ) (w : σ) :
    (getContainer rt w).calls.count Call.ServiceContainers = 1
      ∧ Call.ServiceUp ∉ (getContainer rt w).calls
      ∧ ∀ id, Call.Wait id ∉ (getContainer rt w).calls := by
  unfold getContainer
  repeat' split
  all_goals simp

theorem rename_calls {σ : Type} (rt : Runtime σ) (s : Service) (w : σ) :
    (rename rt s w).calls.count Call.ServiceContainers = 1
      ∧ Call.ServiceUp ∉ (rename rt s w).calls
      ∧ ∀ id, Call.Wait id ∉ (rename rt s w).calls := by
  obtain ⟨h1, h2, h3⟩ := getContainer_calls rt w
  unfold rename
  simp only
  split
  · exact ⟨h1, h2, h3⟩
  · exact ⟨h1, h2, h3⟩
  · split
    · split
      · exact ⟨h1, h2, h3⟩
      · split
        · refine ⟨?_, ?_, ?_⟩
          · simp [List.count_append, h1]
          · simp [h2]
          · intro id; simp [h3 id]
        · exact ⟨h1, h2, h3⟩
    · exact ⟨h1, h2, h3⟩

theorem wait_calls {σ : Type} (rt : Runtime σ) (w : σ) :
    (wait rt w).calls.count Call.ServiceContainers = 1 := by
  obtain ⟨h1, _, _⟩ := getContainer_calls rt w
  unfold wait
  simp only
  split
  · exact h1
  · exact h1
  · split
    · simp [List.count_append, h1]
    · split <;> simp [List.count_append, h1]

theorem Up_unfold {σ : Type} (rt : Runtime σ) (cfg : config.Constants) (s : Service)
    (w : σ) :
    Up rt cfg s w
      = match (rt.ServiceCreate w).1 with
        | some err =>
          { ret := Ret.value (some err), world := (rt.ServiceCreate w).2,
            calls := [Call.ServiceCreate] }
        | none =>
          match (rename rt s (rt.ServiceCreate w).2).ret with
          | Ret.panic =>
            { ret := Ret.panic, world := (rename rt s (rt.ServiceCreate w).2).world,
              calls := Call.ServiceCreate :: (rename rt s (rt.ServiceCreate w).2).calls }
          | Ret.value (some err) =>
            { ret := Ret.value (some err),
              world := (rename rt s (rt.ServiceCreate w).2).world,
              calls := Call.ServiceCreate :: (rename rt s (rt.ServiceCreate w).2).calls }
          | Ret.value none =>
            if index s.Config.Labels cfg.CREATE_ONLY = lit "true" then
              { ret := Ret.value (checkReload cfg s.Config.Labels),
                world := (rename rt s (rt.ServiceCreate w).2).world,
                calls := Call.ServiceCreate :: (rename rt s (rt.ServiceCreate w).2).calls }
            else
              match (rt.ServiceUp (rename rt s (rt.ServiceCreate w).2).world).1 with
              | some err =>
                { ret := Ret.value (some err),
                  world := (rt.ServiceUp (rename rt s (rt.ServiceCreate w).2).world).2,
                  calls := Call.ServiceCreate :: (rename rt s (rt.ServiceCreate w).2).calls
                    ++ [Call.ServiceUp] }
              | none =>
                if index s.Config.Labels cfg.DETACH = lit "false" then
                  match (wait rt (rt.ServiceUp
                      (rename rt s (rt.ServiceCreate w).2).world).2).ret with
                  | some err =>
                    { ret := Ret.value (some err),
                      world := (wait rt (rt.ServiceUp
                        (rename rt s (rt.ServiceCreate w).2).world).2).world,
                      calls := Call.ServiceCreate :: (rename rt s (rt.ServiceCreate w).2).calls
                        ++ [Call.ServiceUp]
                        ++ (wait rt (rt.ServiceUp
                          (rename rt s (rt.ServiceCreate w).2).world).2).calls }
                  | none =>
                    { ret := Ret.value (checkReload cfg s.Config.Labels),
                      world := (wait rt (rt.ServiceUp
                        (rename rt s (rt.ServiceCreate w).2).world).2).world,
                      calls := Call.ServiceCreate :: (rename rt s (rt.ServiceCreate w).2).calls
                        ++ [Call.ServiceUp]
                        ++ (wait rt (rt.ServiceUp
                          (rename rt s (rt.ServiceCreate w).2).world).2).calls }
                else
                  { ret := Ret.value (checkReload cfg s.Config.Labels),
                    world := (rt.ServiceUp (rename rt s (rt.ServiceCreate w).2).world).2,
                    calls := Call.ServiceCreate :: (rename rt s (rt.ServiceCreate w).2).calls
                      ++ [Call.ServiceUp] } := by
  unfold Up
  rcases rt.ServiceCreate w with ⟨_ | e, w1⟩
  · simp only
    split
    · rfl
    · rfl
    · split
      · rfl
      · rcases rt.ServiceUp (rename rt s w1).world with ⟨_ | e, w3⟩
        · rfl
        · rfl
  · rfl

theorem wait_unfold {σ : Type} (rt : Runtime σ) (w : σ) :
    wait rt w
      = match (getContainer rt w).ret with
        | (_, some err) =>
          { ret := some err, world := (getContainer rt w).world,
            calls := (getContainer rt w).calls }
        | (none, none) =>
          { ret := none, world := (getContainer rt w).world,
            calls := (getContainer rt w).calls }
        | (some info, none) =>
          match (rt.Wait info.Id (getContainer rt w).world).1.Error with
          | some e =>
            { ret := some e, world := (rt.Wait info.Id (getContainer rt w).world).2,
              calls := (getContainer rt w).calls ++ [Call.Wait info.Id] }
          | none =>
            if (rt.Wait info.Id (getContainer rt w).world).1.ExitCode = 0 then
              { ret := none, world := (rt.Wait info.Id (getContainer rt w).world).2,
                calls := (getContainer rt w).calls ++ [Call.Wait info.Id] }
            else
              { ret := some (GoError.Errorf (lit "ExitCode "
                  ++ fmtInt (rt.Wait info.Id (getContainer rt w).world).1.ExitCode)),
                world := (rt.Wait info.Id (getContainer rt w).world).2,
                calls := (getContainer rt w).calls ++ [Call.Wait info.Id] } := by
  rfl

theorem wait_exited {σ : Type} (rt : Runtime σ) (w : σ) (info : ContainerInfo) (n : Int)
    (hg : (getContainer rt w).ret = (some info, none))
    (hw : (rt.Wait info.Id (getContainer rt w).world).1 = { ExitCode := n, Error := none }) :
    (wait rt w).ret
      = if n = 0 then none else some (GoError.Errorf (lit "ExitCode " ++ fmtInt n)) := by
  rw [wait_unfold]
  simp only [hg, hw]
  split <;> rfl

theorem wait_calls_ne_nil {σ : Type} (rt : Runtime σ) (w : σ) : (wait rt w).calls ≠ [] := by
  intro h
  have := wait_calls rt w
  rw [h] at this
  simp at this

/-- C7: for every service whose create-only label is exactly `true` and for which base
create and `rename` succeed, `Up` makes the call of base create and the calls of `rename`
and no other: base start is not called, `wait` is not run (no `Wait` call, and the
containers are enumerated once, by `rename`), whatever the detach label is; and `Up`
returns nil when the reload-config label is not `true`. -/
theorem Up_create_only {σ : Type} (rt : Runtime σ) (cfg : config.Constants) (s : Service)
    (w : σ)
    (hc : index s.Config.Labels cfg.CREATE_ONLY = lit "true")
    (h1 : (rt.ServiceCreate w).1 = none)
    (h2 : (rename rt s (rt.ServiceCreate w).2).ret = Ret.value none) :
    (Up rt cfg s w).calls = Call.ServiceCreate :: (rename rt s (rt.ServiceCreate w).2).calls
      ∧ (Up rt cfg s w).world = (rename rt s (rt.ServiceCreate w).2).world
      ∧ Call.ServiceUp ∉ (Up rt cfg s w).calls
      ∧ (∀ id, Call.Wait id ∉ (Up rt cfg s w).calls)
      ∧ (Up rt cfg s w).calls.count Call.ServiceContainers = 1
      ∧ (index s.Config.Labels cfg.RELOAD_CONFIG ≠ lit "true" →
          (Up rt cfg s w).ret = Ret.value none) := by
  obtain ⟨r1, r2, r3⟩ := rename_calls rt s (rt.ServiceCreate w).2
  have hup : Up rt cfg s w
      = { ret := Ret.value (checkReload cfg s.Config.Labels),
          world := (rename rt s (rt.ServiceCreate w).2).world,
          calls := Call.ServiceCreate :: (rename rt s (rt.ServiceCreate w).2).calls } := by
    rw [Up_unfold]; simp only [h1, h2, hc, if_true]
  rw [hup]
  refine ⟨rfl, rfl, ?_, ?_, ?_, ?_⟩
  · simp [r2]
  · intro id; simp [r3 id]
  · simp [List.count_cons, r1]
  · intro hr; simp [checkReload, hr]

/-- C7 (witness): `web` with create-only `true` and detach `false`; its container is
already named `/web`. -/
theorem Up_create_only_witness :
    index (web "busybox" "" createOnlyLabels []).Config.Labels sampleConstants.DETACH
        = lit "false"
      ∧ (Up (scripted allGood) sampleConstants (web "busybox" "" createOnlyLabels []) 0).calls
        = Call.ServiceCreate
          :: (rename (scripted allGood) (web "busybox" "" createOnlyLabels [])
                ((scripted allGood).ServiceCreate 0).2).calls
      ∧ (Up (scripted allGood) sampleConstants (web "busybox" "" createOnlyLabels []) 0).ret
        = Ret.value none :=
  ⟨by decide,
   (Up_create_only (scripted allGood) sampleConstants (web "busybox" "" createOnlyLabels []) 0
      (by decide) (by decide) (by decide)).1,
   (Up_create_only (scripted allGood) sampleConstants (web "busybox" "" createOnlyLabels []) 0
      (by decide) (by decide) (by decide)).2.2.2.2.2 (by decide)⟩

/-- C8 (counterexample): `web` has no reload-config label.  On a runtime whose base create
fails with `project.ErrRestart`, and on one whose exit notification carries
`project.ErrRestart` (detach `false`), `Up` returns that failure as it is: the failure of a
step is not distinct from the restart signal. -/
theorem restart_signal_counterexample :
    (index (web "busybox" "" [] []).Config.Labels sampleConstants.RELOAD_CONFIG ≠ lit "true"
        ∧ ((scripted createRestarts).ServiceCreate 0).1 = some project.ErrRestart
        ∧ (Up (scripted createRestarts) sampleConstants (web "busybox" "" [] []) 0).ret
          = Ret.value (some project.ErrRestart))
      ∧ (index (web "busybox" "" waitLabels []).Config.Labels sampleConstants.RELOAD_CONFIG
          ≠ lit "true"
        ∧ (wait (scripted waitRestarts) 5).ret = some project.ErrRestart
        ∧ (Up (scripted waitRestarts) sampleConstants (web "busybox" "" waitLabels []) 0).calls
          = [Call.ServiceCreate, Call.ServiceContainers, Call.Id { handle := 1 },
             Call.InspectContainer (lit "c1"), Call.ServiceUp, Call.ServiceContainers,
             Call.Id { handle := 1 }, Call.InspectContainer (lit "c1"), Call.Wait (lit "c1")]
        ∧ (Up (scripted waitRestarts) sampleConstants (web "busybox" "" waitLabels []) 0).ret
          = Ret.value (some project.ErrRestart)) := by
  decide

/-- C8 (amended): for every service for which every step that `Up` performs succeeds (base
create, `rename`, and, unless create-only is `true`, base start and `wait` when detach is
`false`), `Up` returns `project.ErrRestart` if the reload-config label is exactly `true`
and nil otherwise (any other value, or no label).  `project.ErrRestart` differs from nil
and from the exit-code failure that `wait` makes.  When a step fails with an error `e`
(base create, `rename`, base start or `wait`), `Up` returns `e` as it is, so its result is
`project.ErrRestart` exactly when `e` itself is `project.ErrRestart`: the restart signal is
distinct from the failure of every step whose error is not `project.ErrRestart`. -/
theorem Up_reload_check {σ : Type} (rt : Runtime σ) (cfg : config.Constants) (s : Service)
    (w : σ) :
    ((rt.ServiceCreate w).1 = none →
        (rename rt s (rt.ServiceCreate w).2).ret = Ret.value none →
        (index s.Config.Labels cfg.CREATE_ONLY ≠ lit "true" →
          (rt.ServiceUp (rename rt s (rt.ServiceCreate w).2).world).1 = none
          ∧ (index s.Config.Labels cfg.DETACH = lit "false" →
              (wait rt (rt.ServiceUp (rename rt s (rt.ServiceCreate w).2).world).2).ret
                = none)) →
        (Up rt cfg s w).ret
          = Ret.value (if index s.Config.Labels cfg.RELOAD_CONFIG = lit "true"
              then some project.ErrRestart else none))
      ∧ (Ret.value (some project.ErrRestart) : Ret (Option GoError)) ≠ Ret.value none
      ∧ (∀ n : Int, GoError.Errorf (lit "ExitCode " ++ fmtInt n) ≠ project.ErrRestart)
      ∧ (∀ e : GoError, (rt.ServiceCreate w).1 = some e →
          (Up rt cfg s w).ret = Ret.value (some e)
            ∧ ((Up rt cfg s w).ret = Ret.value (some project.ErrRestart)
                ↔ e = project.ErrRestart))
      ∧ (∀ e : GoError, (rt.ServiceCreate w).1 = none →
          (rename rt s (rt.ServiceCreate w).2).ret = Ret.value (some e) →
          (Up rt cfg s w).ret = Ret.value (some e)
            ∧ ((Up rt cfg s w).ret = Ret.value (some project.ErrRestart)
                ↔ e = project.ErrRestart))
      ∧ (∀ e : GoError, (rt.ServiceCreate w).1 = none →
          (rename rt s (rt.ServiceCreate w).2).ret = Ret.value none →
          index s.Config.Labels cfg.CREATE_ONLY ≠ lit "true" →
          (rt.ServiceUp (rename rt s (rt.ServiceCreate w).2).world).1 = some e →
          (Up rt cfg s w).ret = Ret.value (some e)
            ∧ ((Up rt cfg s w).ret = Ret.value (some project.ErrRestart)
                ↔ e = project.ErrRestart))
      ∧ (∀ e : GoError, (rt.ServiceCreate w).1 = none →
          (rename rt s (rt.ServiceCreate w).2).ret = Ret.value none →
          index s.Config.Labels cfg.CREATE_ONLY ≠ lit "true" →
          (rt.ServiceUp (rename rt s (rt.ServiceCreate w).2).world).1 = none →
          index s.Config.Labels cfg.DETACH = lit "false" →
          (wait rt (rt.ServiceUp (rename rt s (rt.ServiceCreate w).2).world).2).ret = some e →
          (Up rt cfg s w).ret = Ret.value (some e)
            ∧ ((Up rt cfg s w).ret = Ret.value (some project.ErrRestart)
                ↔ e = project.ErrRestart)) := by
  have key : ∀ e : GoError, (Up rt cfg s w).ret = Ret.value (some e) →
      ((Up rt cfg s w).ret = Ret.value (some e)
        ∧ ((Up rt cfg s w).ret = Ret.value (some project.ErrRestart)
            ↔ e = project.ErrRestart)) := by
    intro e he
    refine ⟨he, ?_⟩
    rw [he]
    constructor
    · intro h
      simpa using h
    · intro h
      rw [h]
  refine ⟨?_, by simp, by intro n; simp [project.ErrRestart], ?_, ?_, ?_, ?_⟩
  · intro h1 h2 h3
    rw [Up_unfold]
    simp only [h1, h2]
    by_cases hc : index s.Config.Labels cfg.CREATE_ONLY = lit "true"
    · simp only [hc, if_true, checkReload]
    · obtain ⟨hu, hw⟩ := h3 hc
      simp only [hc, if_false, hu]
      by_cases hd : index s.Config.Labels cfg.DETACH = lit "false"
      · simp only [hd, if_true, hw hd, checkReload]
      · simp only [hd, if_false, checkReload]
  · intro e h1
    apply key
    rw [Up_unfold]
    simp only [h1]
  · intro e h1 h2
    apply key
    rw [Up_unfold]
    simp only [h1, h2]
  · intro e h1 h2 hc h3
    apply key
    rw [Up_unfold]
    simp only [h1, h2, hc, if_false, h3]
  · intro e h1 h2 hc h3 hd hw
    apply key
    rw [Up_unfold]
    simp only [h1, h2, hc, if_false, h3, hd, if_true, hw]

/-- C8 (witness): `web` with detach `false` and reload-config `true`; every step succeeds
and the container exits with code 0, so `Up` returns `project.ErrRestart`.  And on a
runtime whose base start fails with another error, `Up` returns that error, which is not
`project.ErrRestart`. -/
theorem Up_reload_check_witness :
    index (web "busybox" "" waitReloadLabels []).Config.Labels
          sampleConstants.RELOAD_CONFIG = lit "true"
      ∧ (Up (scripted allGood) sampleConstants (web "busybox" "" waitReloadLabels []) 0).ret
        = Ret.value (if index (web "busybox" "" waitReloadLabels []).Config.Labels
              sampleConstants.RELOAD_CONFIG = lit "true"
            then some project.ErrRestart else none)
      ∧ ¬ (Up (scripted startFails) sampleConstants
            (web "busybox" "" waitReloadLabels []) 0).ret
          = Ret.value (some project.ErrRestart) :=
  ⟨by decide,
   (Up_reload_check (scripted allGood) sampleConstants (web "busybox" "" waitReloadLabels []) 0).1
      (by decide) (by decide) (by decide),
   fun h =>
    absurd
      ((((Up_reload_check (scripted startFails) sampleConstants
          (web "busybox" "" waitReloadLabels []) 0).2.2.2.2.2.1 (GoError.other 3)
          (by decide) (by decide) (by decide) (by decide)).2).1 h)
      (by decide)⟩

/-- C9: for every service whose create-only label is not `true` and for which base create,
`rename` and base start succeed, `Up` runs `wait` if and only if the detach label is exactly
`false` (after the call of base start come the calls of `wait`, at least one, or none).
When detach is `false` and the container that `wait` finds exits with a code `n` other than
0, `Up` returns the error `ExitCode n` and not `project.ErrRestart`, whatever the
reload-config label is; when it exits with code 0, `Up` returns what the reload check
returns, which is nil if reload-config is not `true`. -/
theorem Up_wait {σ : Type} (rt : Runtime σ) (cfg : config.Constants) (s : Service) (w : σ)
    (hc : index s.Config.Labels cfg.CREATE_ONLY ≠ lit "true")
    (h1 : (rt.ServiceCreate w).1 = none)
    (h2 : (rename rt s (rt.ServiceCreate w).2).ret = Ret.value none)
    (h3 : (rt.ServiceUp (rename rt s (rt.ServiceCreate w).2).world).1 = none) :
    (Up rt cfg s w).calls
        = Call.ServiceCreate :: (rename rt s (rt.ServiceCreate w).2).calls ++ [Call.ServiceUp]
          ++ (if index s.Config.Labels cfg.DETACH = lit "false"
              then (wait rt (rt.ServiceUp (rename rt s (rt.ServiceCreate w).2).world).2).calls
              else [])
      ∧ (wait rt (rt.ServiceUp (rename rt s (rt.ServiceCreate w).2).world).2).calls ≠ []
      ∧ (Up rt cfg s w).calls.count Call.ServiceContainers
          = (if index s.Config.Labels cfg.DETACH = lit "false" then 2 else 1)
      ∧ (index s.Config.Labels cfg.DETACH = lit "false" →
          ∀ (info : ContainerInfo) (n : Int),
            (getContainer rt (rt.ServiceUp (rename rt s (rt.ServiceCreate w).2).world).2).ret
                = (some info, none) →
            (rt.Wait info.Id (getContainer rt
                (rt.ServiceUp (rename rt s (rt.ServiceCreate w).2).world).2).world).1
                = { ExitCode := n, Error := none } →
            (n ≠ 0 →
              (Up rt cfg s w).ret
                  = Ret.value (some (GoError.Errorf (lit "ExitCode " ++ fmtInt n)))
                ∧ (Up rt cfg s w).ret ≠ Ret.value (some project.ErrRestart))
            ∧ (n = 0 →
              (Up rt cfg s w).ret = Ret.value (checkReload cfg s.Config.Labels)
                ∧ (index s.Config.Labels cfg.RELOAD_CONFIG ≠ lit "true" →
                    (Up rt cfg s w).ret = Ret.value none))) := by
  obtain ⟨r1, _, _⟩ := rename_calls rt s (rt.ServiceCreate w).2
  have hwc := wait_calls rt (rt.ServiceUp (rename rt s (rt.ServiceCreate w).2).world).2
  refine ⟨?_, wait_calls_ne_nil rt _, ?_, ?_⟩
  · rw [Up_unfold]
    simp only [h1, h2, hc, if_false, h3]
    by_cases hd : index s.Config.Labels cfg.DETACH = lit "false"
    · simp only [hd, if_true]
      split <;> rfl
    · simp only [hd, if_false, List.append_nil]
  · rw [Up_unfold]
    simp only [h1, h2, hc, if_false, h3]
    by_cases hd : index s.Config.Labels cfg.DETACH = lit "false"
    · simp only [hd, if_true]
      split <;> simp [List.count_cons, List.count_append, r1, hwc]
    · simp [hd, List.count_cons, List.count_append, r1]
  · intro hd info n hg hw
    have hret := wait_exited rt _ info n hg hw
    rw [Up_unfold]
    simp only [h1, h2, hc, if_false, h3, hd, if_true]
    refine ⟨?_, ?_⟩
    · intro hn
      rw [if_neg hn] at hret
      simp only [hret]
      exact ⟨trivial, by simp [project.ErrRestart]⟩
    · intro hn
      rw [if_pos hn] at hret
      simp only [hret]
      refine ⟨trivial, ?_⟩
      intro hr
      simp [checkReload, hr]

/-- C9 (witness): `web` with detach `false` and reload-config `true`, whose container
exits with code 2: `Up` returns the error `ExitCode 2`. -/
theorem Up_wait_witness :
    index (web "busybox" "" waitReloadLabels []).Config.Labels sampleConstants.RELOAD_CONFIG
        = lit "true"
      ∧ (Up (scripted exitsTwo) sampleConstants (web "busybox" "" waitReloadLabels []) 0).ret
        = Ret.value (some (GoError.Errorf (lit "ExitCode " ++ fmtInt 2))) :=
  ⟨by decide,
   (((Up_wait (scripted exitsTwo) sampleConstants (web "busybox" "" waitReloadLabels []) 0
      (by decide) (by decide) (by decide) (by decide)).2.2.2 (by decide)
      { Id := lit "c1", Name := lit "/web" } 2 (by decide) (by decide)).1 (by decide)).1⟩

/-- C10: `Up` stops at the first failing step and returns its error unchanged, whatever the
labels are (reload-config included).  If base create fails with `e`, `Up` returns `e` and
its only call is base create.  If `rename` fails with `e`, `Up` returns `e` and makes the
call of base create and the calls of `rename` only: no base start, no `Wait`, the containers
enumerated once.  If base start fails with `e`, `Up` returns `e` and makes the calls of
base create, of `rename` and of base start only: `wait` is not run. -/
theorem Up_aborts {σ : Type} (rt : Runtime σ) (cfg : config.Constants) (s : Service)
    (w : σ) (e : GoError) :
    ((rt.ServiceCreate w).1 = some e →
        (Up rt cfg s w).ret = Ret.value (some e)
          ∧ (Up rt cfg s w).calls = [Call.ServiceCreate]
          ∧ (Up rt cfg s w).world = (rt.ServiceCreate w).2)
      ∧ ((rt.ServiceCreate w).1 = none →
          (rename rt s (rt.ServiceCreate w).2).ret = Ret.value (some e) →
          (Up rt cfg s w).ret = Ret.value (some e)
            ∧ (Up rt cfg s w).calls
                = Call.ServiceCreate :: (rename rt s (rt.ServiceCreate w).2).calls
            ∧ (Up rt cfg s w).world = (rename rt s (rt.ServiceCreate w).2).world
            ∧ Call.ServiceUp ∉ (Up rt cfg s w).calls
            ∧ (∀ id, Call.Wait id ∉ (Up rt cfg s w).calls)
            ∧ (Up rt cfg s w).calls.count Call.ServiceContainers = 1)
      ∧ ((rt.ServiceCreate w).1 = none →
          (rename rt s (rt.ServiceCreate w).2).ret = Ret.value none →
          index s.Config.Labels cfg.CREATE_ONLY ≠ lit "true" →
          (rt.ServiceUp (rename rt s (rt.ServiceCreate w).2).world).1 = some e →
          (Up rt cfg s w).ret = Ret.value (some e)
            ∧ (Up rt cfg s w).calls
                = Call.ServiceCreate :: (rename rt s (rt.ServiceCreate w).2).calls
                  ++ [Call.ServiceUp]
            ∧ (Up rt cfg s w).world
                = (rt.ServiceUp (rename rt s (rt.ServiceCreate w).2).world).2
            ∧ (∀ id, Call.Wait id ∉ (Up rt cfg s w).calls)
            ∧ (Up rt cfg s w).calls.count Call.ServiceContainers = 1) := by
  obtain ⟨r1, r2, r3⟩ := rename_calls rt s (rt.ServiceCreate w).2
  refine ⟨?_, ?_, ?_⟩
  · intro h1
    rw [Up_unfold]
    simp only [h1]
    exact ⟨trivial, trivial, trivial⟩
  · intro h1 h2
    rw [Up_unfold]
    simp only [h1, h2]
    refine ⟨trivial, trivial, trivial, ?_, ?_, ?_⟩
    · simp [r2]
    · intro id; simp [r3 id]
    · simp [List.count_cons, r1]
  · intro h1 h2 hc h3
    rw [Up_unfold]
    simp only [h1, h2, hc, if_false, h3]
    refine ⟨trivial, trivial, trivial, ?_, ?_⟩
    · intro id; simp [r3 id]
    · simp [List.count_cons, List.count_append, r1]

/-- C10 (witness): `web` with detach `false` and reload-config `true`, on a runtime whose
base create fails, on one whose rename fails and on one whose base start fails. -/
theorem Up_aborts_witness :
    (Up (scripted createFails) sampleConstants (web "busybox" "" waitReloadLabels []) 0).ret
        = Ret.value (some (GoError.other 1))
      ∧ (Up (scripted renameFails) sampleConstants
          (web "busybox" "" waitReloadLabels []) 0).ret
        = Ret.value (some (GoError.other 2))
      ∧ (Up (scripted startFails) sampleConstants
          (web "busybox" "" waitReloadLabels []) 0).ret
        = Ret.value (some (GoError.other 3)) :=
  ⟨((Up_aborts (scripted createFails) sampleConstants (web "busybox" "" waitReloadLabels []) 0
      (GoError.other 1)).1 (by decide)).1,
   ((Up_aborts (scripted renameFails) sampleConstants (web "busybox" "" waitReloadLabels []) 0
      (GoError.other 2)).2.1 (by decide) (by decide)).1,
   ((Up_aborts (scripted startFails) sampleConstants (web "busybox" "" waitReloadLabels []) 0
      (GoError.other 3)).2.2 (by decide) (by decide) (by decide) (by decide)).1⟩

/-! ## Reconciliation and waiting: `getContainer`, `rename`, `wait`, `Create` -/

theorem getContainer_unfold {σ : Type} (rt : Runtime σ) (w : σ) :
    getContainer rt w
      = match (rt.ServiceContainers w).1.2 with
        | some e =>
          { ret := (none, some e), world := (rt.ServiceContainers w).2,
            calls := [Call.ServiceContainers] }
        | none =>
          match (rt.ServiceContainers w).1.1 with
          | [] =>
            { ret := (none, none), world := (rt.ServiceContainers w).2,
              calls := [Call.ServiceContainers] }
          | c :: _ =>
            match (rt.Id c (rt.ServiceContainers w).2).1.2 with
            | some e =>
              { ret := (none, some e), world := (rt.Id c (rt.ServiceContainers w).2).2,
                calls := [Call.ServiceContainers, Call.Id c] }
            | none =>
              { ret := (rt.InspectContainer (rt.Id c (rt.ServiceContainers w).2).1.1
                  (rt.Id c (rt.ServiceContainers w).2).2).1,
                world := (rt.InspectContainer (rt.Id c (rt.ServiceContainers w).2).1.1
                  (rt.Id c (rt.ServiceContainers w).2).2).2,
                calls := [Call.ServiceContainers, Call.Id c,
                  Call.InspectContainer (rt.Id c (rt.ServiceContainers w).2).1.1] } := by
  rfl

theorem getContainer_no_rename {σ : Type} (rt : Runtime σ) (w : σ) (a b : GoString) :
    Call.RenameContainer a b ∉ (getContainer rt w).calls := by
  rw [getContainer_unfold]
  repeat' split
  all_goals simp

theorem rename_unfold {σ : Type} (rt : Runtime σ) (s : Service) (w : σ) :
    rename rt s w
      = match (getContainer rt w).ret with
        | (_, some err) =>
          { ret := Ret.value (some err), world := (getContainer rt w).world,
            calls := (getContainer rt w).calls }
        | (none, none) =>
          { ret := Ret.value none, world := (getContainer rt w).world,
            calls := (getContainer rt w).calls }
        | (some info, none) =>
          if info.Name.length > 0 then
            match sliceFrom info.Name 1 with
            | none =>
              { ret := Ret.panic, world := (getContainer rt w).world,
                calls := (getContainer rt w).calls }
            | some name1 =>
              if name1 ≠ s.Name then
                { ret := Ret.value (rt.RenameContainer name1 s.Name (getContainer rt w).world).1,
                  world := (rt.RenameContainer name1 s.Name (getContainer rt w).world).2,
                  calls := (getContainer rt w).calls
                    ++ [Call.Debugf name1 s.Name, Call.RenameContainer name1 s.Name] }
              else
                { ret := Ret.value none, world := (getContainer rt w).world,
                  calls := (getContainer rt w).calls }
          else
            { ret := Ret.value none, world := (getContainer rt w).world,
              calls := (getContainer rt w).calls } := by
  rfl

theorem rename_inspected {σ : Type} (rt : Runtime σ) (s : Service) (w : σ)
    (info : ContainerInfo) (hg : (getContainer rt w).ret = (some info, none)) :
    rename rt s w
      = if info.Name.length > 0 ∧ info.Name.drop 1 ≠ s.Name then
          { ret := Ret.value
              (rt.RenameContainer (info.Name.drop 1) s.Name (getContainer rt w).world).1,
            world := (rt.RenameContainer (info.Name.drop 1) s.Name (getContainer rt w).world).2,
            calls := (getContainer rt w).calls
              ++ [Call.Debugf (info.Name.drop 1) s.Name,
                  Call.RenameContainer (info.Name.drop 1) s.Name] }
        else
          { ret := Ret.value none, world := (getContainer rt w).world,
            calls := (getContainer rt w).calls } := by
  rw [rename_unfold]
  simp only [hg]
  by_cases hl : info.Name.length > 0
  · have h1 : 1 ≤ info.Name.length := hl
    simp only [hl, if_true, sliceFrom, h1, true_and]
  · simp [hl]

theorem rename_failed_inspection {σ : Type} (rt : Runtime σ) (s : Service) (w : σ)
    (i : Option ContainerInfo) (e : GoError) (hg : (getContainer rt w).ret = (i, some e)) :
    rename rt s w
      = { ret := Ret.value (some e), world := (getContainer rt w).world,
          calls := (getContainer rt w).calls } := by
  rw [rename_unfold]
  simp only [hg]

theorem wait_failed_inspection {σ : Type} (rt : Runtime σ) (w : σ)
    (i : Option ContainerInfo) (e : GoError) (hg : (getContainer rt w).ret = (i, some e)) :
    wait rt w
      = { ret := some e, world := (getContainer rt w).world,
          calls := (getContainer rt w).calls } := by
  rw [wait_unfold]
  simp only [hg]

theorem rename_absent {σ : Type} (rt : Runtime σ) (s : Service) (w : σ)
    (hg : (getContainer rt w).ret = (none, none)) :
    rename rt s w
      = { ret := Ret.value none, world := (getContainer rt w).world,
          calls := (getContainer rt w).calls } := by
  rw [rename_unfold]
  simp only [hg]

theorem wait_absent {σ : Type} (rt : Runtime σ) (w : σ)
    (hg : (getContainer rt w).ret = (none, none)) :
    wait rt w
      = { ret := none, world := (getContainer rt w).world,
          calls := (getContainer rt w).calls } := by
  rw [wait_unfold]
  simp only [hg]

theorem getContainer_empty {σ : Type} (rt : Runtime σ) (w : σ)
    (hc : (rt.ServiceContainers w).1 = ([], none)) :
    getContainer rt w
      = { ret := (none, none), world := (rt.ServiceContainers w).2,
          calls := [Call.ServiceContainers] } := by
  rw [getContainer_unfold]
  simp only [hc]

theorem Create_unfold {σ : Type} (rt : Runtime σ) (s : Service) (w : σ) :
    Create rt s w
      = match (rt.ServiceCreate w).1 with
        | some err =>
          { ret := Ret.value (some err), world := (rt.ServiceCreate w).2,
            calls := [Call.ServiceCreate] }
        | none =>
          { ret := (rename rt s (rt.ServiceCreate w).2).ret,
            world := (rename rt s (rt.ServiceCreate w).2).world,
            calls := Call.ServiceCreate :: (rename rt s (rt.ServiceCreate w).2).calls } := by
  unfold Create
  rcases rt.ServiceCreate w with ⟨_ | e, w1⟩ <;> rfl

/-- C11: `Create` is base create followed, when it succeeds, by `rename`, whose result it
returns; if base create fails with `e` it returns `e` and its only call is base create.
It never calls base start or `Wait` and enumerates the containers at most once, and its
outcome does not depend on the label map (reload-config and detach included). -/
theorem Create_sequence {σ : Type} (rt : Runtime σ) (s : Service) (w : σ) :
    (∀ e, (rt.ServiceCreate w).1 = some e →
        (Create rt s w).ret = Ret.value (some e)
          ∧ (Create rt s w).calls = [Call.ServiceCreate]
          ∧ (Create rt s w).world = (rt.ServiceCreate w).2)
      ∧ ((rt.ServiceCreate w).1 = none →
          (Create rt s w).ret = (rename rt s (rt.ServiceCreate w).2).ret
            ∧ (Create rt s w).calls
                = Call.ServiceCreate :: (rename rt s (rt.ServiceCreate w).2).calls
            ∧ (Create rt s w).world = (rename rt s (rt.ServiceCreate w).2).world)
      ∧ Call.ServiceUp ∉ (Create rt s w).calls
      ∧ (∀ id, Call.Wait id ∉ (Create rt s w).calls)
      ∧ (Create rt s w).calls.count Call.ServiceContainers ≤ 1
      ∧ (∀ labels : GoString → Option GoString,
          Create rt { s with Config := { s.Config with Labels := labels } } w
            = Create rt s w) := by
  obtain ⟨r1, r2, r3⟩ := rename_calls rt s (rt.ServiceCreate w).2
  refine ⟨?_, ?_, ?_, ?_, ?_, ?_⟩
  · intro e h
    rw [Create_unfold]
    simp only [h]
    exact ⟨trivial, trivial, trivial⟩
  · intro h
    rw [Create_unfold]
    simp only [h]
    exact ⟨trivial, trivial, trivial⟩
  · rw [Create_unfold]
    split
    · simp
    · simp [r2]
  · intro id
    rw [Create_unfold]
    split
    · simp
    · simp [r3 id]
  · rw [Create_unfold]
    split
    · simp
    · simp [List.count_cons, r1]
  · intro labels
    rfl

/-- C11 (witness): `web` with detach `false` and reload-config `true`, whose container is
already named `/web`: `Create` returns nil, and its calls are base create and an
inspection. -/
theorem Create_sequence_witness :
    index (web "busybox" "" waitReloadLabels []).Config.Labels sampleConstants.RELOAD_CONFIG
        = lit "true"
      ∧ (Create (scripted allGood) (web "busybox" "" waitReloadLabels []) 0).ret
        = (rename (scripted allGood) (web "busybox" "" waitReloadLabels [])
            ((scripted allGood).ServiceCreate 0).2).ret
      ∧ (Create (scripted allGood) (web "busybox" "" waitReloadLabels []) 0).ret
        = Ret.value none
      ∧ (Create (scripted allGood) (web "busybox" "" waitReloadLabels []) 0).calls
        = [Call.ServiceCreate, Call.ServiceContainers, Call.Id { handle := 1 },
           Call.InspectContainer (lit "c1")] :=
  ⟨by decide,
   ((Create_sequence (scripted allGood) (web "busybox" "" waitReloadLabels []) 0).2.1
      (by decide)).1,
   by decide, by decide⟩

/-- C12: `wait` returns nil without a `Wait` call when the service has no container (the
enumeration is empty, or the inspection answers nil).  When the inspection answers a
container, `wait` makes one `Wait` call, on the `Id` of the inspected container, and
returns the error of the notification if it carries one; otherwise nil if the exit code
is 0 and the error `ExitCode n` for every other exit code `n`. -/
theorem wait_result {σ : Type} (rt : Runtime σ) (w : σ) :
    ((rt.ServiceContainers w).1 = ([], none) →
        wait rt w = { ret := none, world := (rt.ServiceContainers w).2,
                      calls := [Call.ServiceContainers] })
      ∧ ((getContainer rt w).ret = (none, none) →
          wait rt w = { ret := none, world := (getContainer rt w).world,
                        calls := (getContainer rt w).calls })
      ∧ (∀ id, Call.Wait id ∉ (getContainer rt w).calls)
      ∧ (∀ info, (getContainer rt w).ret = (some info, none) →
          (wait rt w).calls = (getContainer rt w).calls ++ [Call.Wait info.Id]
            ∧ (wait rt w).world = (rt.Wait info.Id (getContainer rt w).world).2
            ∧ (∀ e, (rt.Wait info.Id (getContainer rt w).world).1.Error = some e →
                (wait rt w).ret = some e)
            ∧ ((rt.Wait info.Id (getContainer rt w).world).1.Error = none →
                (rt.Wait info.Id (getContainer rt w).world).1.ExitCode = 0 →
                (wait rt w).ret = none)
            ∧ (∀ n : Int, (rt.Wait info.Id (getContainer rt w).world).1.Error = none →
                (rt.Wait info.Id (getContainer rt w).world).1.ExitCode = n → n ≠ 0 →
                (wait rt w).ret = some (GoError.Errorf (lit "ExitCode " ++ fmtInt n)))) := by
  refine ⟨?_, ?_, (getContainer_calls rt w).2.2, ?_⟩
  · intro hc
    have hg := getContainer_empty rt w hc
    rw [wait_absent rt w (by rw [hg]), hg]
  · intro hg
    exact wait_absent rt w hg
  · intro info hg
    rw [wait_unfold]
    simp only [hg]
    refine ⟨?_, ?_, ?_, ?_, ?_⟩
    · split
      · rfl
      · split <;> rfl
    · split
      · rfl
      · split <;> rfl
    · intro e he
      simp only [he]
    · intro he h0
      simp only [he, h0, if_true]
    · intro n he hn hne
      subst hn
      simp only [he, hne, if_false]

/-- C12 (witness): the container of `web` exits with code 2; `wait` makes one `Wait` call
on `c1` and returns the error `ExitCode 2`. -/
theorem wait_result_witness :
    (wait (scripted exitsTwo) 0).calls
        = (getContainer (scripted exitsTwo) 0).calls ++ [Call.Wait (lit "c1")]
      ∧ (wait (scripted exitsTwo) 0).ret = some (GoError.Errorf (lit "ExitCode " ++ fmtInt 2))
      ∧ lit "ExitCode " ++ fmtInt 2 = lit "ExitCode 2" :=
  ⟨((wait_result (scripted exitsTwo) 0).2.2.2 { Id := lit "c1", Name := lit "/web" }
      (by decide)).1,
   ((wait_result (scripted exitsTwo) 0).2.2.2 { Id := lit "c1", Name := lit "/web" }
      (by decide)).2.2.2.2 2 (by decide) (by decide) (by decide),
   by decide⟩

/-- C13 (counterexample): two containers of the service `web`.  The first has the empty
runtime name: the name with its leading separator stripped, empty, differs from `web`, yet
no rename is issued.  The second has the runtime name `web`, without a separator: the name
with its leading separator stripped equals `web`, yet `RenameContainer(eb, web)` is
issued. -/
theorem rename_counterexample :
    (specStripSeparator (lit "") ≠ (web "" "" [] []).Name
        ∧ (rename (scripted (named "")) (web "" "" [] []) 0).calls
          = [Call.ServiceContainers, Call.Id { handle := 1 }, Call.InspectContainer (lit "c1")]
        ∧ (rename (scripted (named "")) (web "" "" [] []) 0).ret = Ret.value none)
      ∧ (specStripSeparator (lit "web") = (web "" "" [] []).Name
        ∧ (rename (scripted (named "web")) (web "" "" [] []) 0).calls
          = [Call.ServiceContainers, Call.Id { handle := 1 }, Call.InspectContainer (lit "c1"),
             Call.Debugf (lit "eb") (lit "web"), Call.RenameContainer (lit "eb") (lit "web")]) := by
  decide

/-- C13 (amended): `rename` returns nil without issuing a rename when the service has no
container, when the inspected runtime name is empty, or when the runtime name without its
first byte (whatever that byte is) equals the service name.  When the runtime name is not
empty and the name without its first byte differs from the service name, `rename` issues
exactly one `RenameContainer(name without its first byte, service name)` and returns its
result. -/
theorem rename_reconciles {σ : Type} (rt : Runtime σ) (s : Service) (w : σ) :
    ((rt.ServiceContainers w).1 = ([], none) →
        rename rt s w = { ret := Ret.value none, world := (rt.ServiceContainers w).2,
                          calls := [Call.ServiceContainers] })
      ∧ ((getContainer rt w).ret = (none, none) →
          rename rt s w = { ret := Ret.value none, world := (getContainer rt w).world,
                            calls := (getContainer rt w).calls })
      ∧ (∀ a b, Call.RenameContainer a b ∉ (getContainer rt w).calls)
      ∧ (∀ info, (getContainer rt w).ret = (some info, none) →
          (info.Name = [] ∨ info.Name.drop 1 = s.Name) →
          rename rt s w = { ret := Ret.value none, world := (getContainer rt w).world,
                            calls := (getContainer rt w).calls })
      ∧ (∀ info, (getContainer rt w).ret = (some info, none) →
          info.Name ≠ [] → info.Name.drop 1 ≠ s.Name →
          rename rt s w
            = { ret := Ret.value
                  (rt.RenameContainer (info.Name.drop 1) s.Name (getContainer rt w).world).1,
                world :=
                  (rt.RenameContainer (info.Name.drop 1) s.Name (getContainer rt w).world).2,
                calls := (getContainer rt w).calls
                  ++ [Call.Debugf (info.Name.drop 1) s.Name,
                      Call.RenameContainer (info.Name.drop 1) s.Name] }) := by
  refine ⟨?_, ?_, getContainer_no_rename rt w, ?_, ?_⟩
  · intro hc
    have hg := getContainer_empty rt w hc
    rw [rename_absent rt s w (by rw [hg]), hg]
  · intro hg
    exact rename_absent rt s w hg
  · intro info hg hn
    rw [rename_inspected rt s w info hg]
    rcases hn with hn | hn
    · simp [hn]
    · simp [hn]
  · intro info hg hne hd
    rw [rename_inspected rt s w info hg]
    have hl : info.Name.length > 0 := List.length_pos.2 hne
    simp only [hl, hd, ne_eq, not_false_eq_true, and_self, if_true]

/-- C13 (witness): the stale container `/old_web_1` of the service `web` is renamed once,
from `old_web_1` to `web`. -/
theorem rename_reconciles_witness :
    (rename (scripted staleName) (web "" "" [] []) 0).calls
      = [Call.ServiceContainers, Call.Id { handle := 1 }, Call.InspectContainer (lit "c1"),
         Call.Debugf (lit "old_web_1") (lit "web"),
         Call.RenameContainer (lit "old_web_1") (lit "web")] :=
  congrArg Outcome.calls
    ((rename_reconciles (scripted staleName) (web "" "" [] []) 0).2.2.2.2
      { Id := lit "c1", Name := lit "/old_web_1" } (by decide) (by decide) (by decide))

/-- C18: `rename` never fails on the slice `info.Name[1:]`, whatever the inspected name
is: the slice is taken only of a non-empty name, of which it is the name without its first
byte (empty for a one-byte name), while on the empty name it would be out of range.  An
inspected container with the empty name makes `rename` return nil with no rename issued. -/
theorem rename_no_panic {σ : Type} (rt : Runtime σ) (s : Service) (w : σ) :
    (rename rt s w).ret ≠ Ret.panic
      ∧ sliceFrom (lit "") 1 = none
      ∧ (∀ c : UInt8, sliceFrom [c] 1 = some [])
      ∧ (∀ name : GoString, name.length > 0 → sliceFrom name 1 = some (name.drop 1))
      ∧ (∀ info, (getContainer rt w).ret = (some info, none) → info.Name = lit "" →
          rename rt s w = { ret := Ret.value none, world := (getContainer rt w).world,
                            calls := (getContainer rt w).calls }
            ∧ ∀ a b, Call.RenameContainer a b ∉ (rename rt s w).calls) := by
  refine ⟨?_, by decide, ?_, ?_, ?_⟩
  · rcases hg : (getContainer rt w).ret with ⟨i, err⟩
    cases err with
    | some e => rw [rename_failed_inspection rt s w i e hg]; simp
    | none =>
      cases i with
      | none => rw [rename_absent rt s w hg]; simp
      | some info =>
        rw [rename_inspected rt s w info hg]
        split <;> simp
  · intro c
    simp [sliceFrom]
  · intro name hl
    have h1 : 1 ≤ name.length := hl
    simp [sliceFrom, h1]
  · intro info hg hn
    have hn2 : info.Name = [] := hn
    have hr : rename rt s w
        = { ret := Ret.value none, world := (getContainer rt w).world,
            calls := (getContainer rt w).calls } := by
      rw [rename_inspected rt s w info hg]
      simp [hn2]
    refine ⟨hr, ?_⟩
    rw [hr]
    exact getContainer_no_rename rt w

/-- C19: `rename` drops the first byte of the inspected name whether or not it is the
separator: for an inspected name `c :: rest` it compares `rest` with the service name,
whatever `c` is.  So for every non-empty service name `n`, a container whose inspected
name is exactly `n` does not match, and `rename` issues
`RenameContainer(n without its first byte, n)`. -/
theorem rename_drops_first_byte {σ : Type} (rt : Runtime σ) (s : Service) (w : σ)
    (info : ContainerInfo) (hg : (getContainer rt w).ret = (some info, none)) :
    (∀ (c : UInt8) (rest : GoString), info.Name = c :: rest →
        rename rt s w
          = if rest ≠ s.Name then
              { ret := Ret.value (rt.RenameContainer rest s.Name (getContainer rt w).world).1,
                world := (rt.RenameContainer rest s.Name (getContainer rt w).world).2,
                calls := (getContainer rt w).calls
                  ++ [Call.Debugf rest s.Name, Call.RenameContainer rest s.Name] }
            else
              { ret := Ret.value none, world := (getContainer rt w).world,
                calls := (getContainer rt w).calls })
      ∧ (s.Name ≠ [] → info.Name = s.Name →
          s.Name.drop 1 ≠ s.Name
            ∧ (rename rt s w).calls
              = (getContainer rt w).calls
                ++ [Call.Debugf (s.Name.drop 1) s.Name,
                    Call.RenameContainer (s.Name.drop 1) s.Name]
            ∧ (rename rt s w).ret
              = Ret.value
                  (rt.RenameContainer (s.Name.drop 1) s.Name (getContainer rt w).world).1) := by
  refine ⟨?_, ?_⟩
  · intro c rest hn
    rw [rename_inspected rt s w info hg, hn]
    simp
  · intro hne hi
    have hd : s.Name.drop 1 ≠ s.Name := by
      intro h
      have hlen := congrArg List.length h
      have hpos : s.Name.length > 0 := List.length_pos.2 hne
      simp only [List.length_drop] at hlen
      omega
    rw [rename_inspected rt s w info hg, hi]
    have hl : s.Name.length > 0 := List.length_pos.2 hne
    simp only [hl, hd, ne_eq, not_false_eq_true, and_self, if_true]

/-- C19 (witness): the container of `web` has the inspected name `web`, without a
separator: `rename` issues `RenameContainer(eb, web)`. -/
theorem rename_drops_first_byte_witness :
    (web "" "" [] []).Name.drop 1 = lit "eb"
      ∧ (rename (scripted (named "web")) (web "" "" [] []) 0).calls
        = (getContainer (scripted (named "web")) 0).calls
          ++ [Call.Debugf ((web "" "" [] []).Name.drop 1) (web "" "" [] []).Name,
              Call.RenameContainer ((web "" "" [] []).Name.drop 1) (web "" "" [] []).Name] :=
  ⟨by decide,
   ((rename_drops_first_byte (scripted (named "web")) (web "" "" [] []) 0
      { Id := lit "c1", Name := lit "web" } (by decide)).2 (by decide) (by decide)).2.1⟩

theorem daemon_converges : Converges daemon 47 :=
  { reads := fun _ => rfl
    create := fun _ _ h => h
    renamed := fun w info oldName newName h _ => by
      have hi : info = { Id := lit "c1", Name := w } := by
        have h2 : (some ({ Id := lit "c1", Name := w } : ContainerInfo), (none : Option GoError))
            = (some info, none) := h
        simp only [Prod.mk.injEq, Option.some.injEq, and_true] at h2
        exact h2.symm
      subst hi
      rfl }

/-- C14: on a runtime in which a successful rename makes the inspected name the separator
followed by the new name and nothing else changes the container, reconciliation is
idempotent.  For a stale container (inspected name the separator followed by a name other
than the service name) a successful `rename` issues exactly one `RenameContainer`, to the
service name, and a `rename` right after it returns nil and issues none.  And when the
container is already named after the service, `Create` issues no rename and a second
`Create` right after it issues none either. -/
theorem rename_idempotent {σ : Type} (rt : Runtime σ) (sep : UInt8) (s : Service) (w : σ)
    (hrt : Converges rt sep) :
    (∀ (info : ContainerInfo) (stale : GoString),
        (getContainer rt w).ret = (some info, none) → info.Name = sep :: stale →
        stale ≠ s.Name → (rename rt s w).ret = Ret.value none →
        (rename rt s w).calls
            = (getContainer rt w).calls
              ++ [Call.Debugf stale s.Name, Call.RenameContainer stale s.Name]
          ∧ (∀ a b, Call.RenameContainer a b ∉ (getContainer rt w).calls)
          ∧ (rename rt s (rename rt s w).world).ret = Ret.value none
          ∧ (∀ a b, Call.RenameContainer a b ∉ (rename rt s (rename rt s w).world).calls))
      ∧ (∀ info : ContainerInfo,
          (rt.ServiceCreate w).1 = none →
          (getContainer rt (rt.ServiceCreate w).2).ret = (some info, none) →
          info.Name = sep :: s.Name →
          (Create rt s w).ret = Ret.value none
            ∧ (∀ a b, Call.RenameContainer a b ∉ (Create rt s w).calls)
            ∧ (∀ a b, Call.RenameContainer a b ∉ (Create rt s (Create rt s w).world).calls)) := by
  refine ⟨?_, ?_⟩
  · intro info stale hg hn hs hret
    have hcond : info.Name.length > 0 ∧ info.Name.drop 1 ≠ s.Name := by
      rw [hn]; exact ⟨by simp, by simpa using hs⟩
    have hr := rename_inspected rt s w info hg
    rw [if_pos hcond] at hr
    have hdrop : info.Name.drop 1 = stale := by rw [hn]; rfl
    rw [hdrop] at hr
    have hok : (rt.RenameContainer stale s.Name (getContainer rt w).world).1 = none := by
      rw [hr] at hret
      simpa using hret
    have hg1 : (getContainer rt (getContainer rt w).world).ret = (some info, none) := by
      rw [hrt.reads w, hg]
    have hg2 := hrt.renamed (getContainer rt w).world info stale s.Name hg1 hok
    have hr2 := rename_inspected rt s
      (rt.RenameContainer stale s.Name (getContainer rt w).world).2 _ hg2
    have hncond : ¬ ((sep :: s.Name).length > 0 ∧ (sep :: s.Name).drop 1 ≠ s.Name) := by
      simp
    rw [if_neg hncond] at hr2
    refine ⟨?_, getContainer_no_rename rt w, ?_, ?_⟩
    · rw [hr]
    · rw [hr]; simp only; rw [hr2]
    · rw [hr]; simp only; rw [hr2]
      exact getContainer_no_rename rt _
  · intro info hc hg hn
    have hncond : ¬ (info.Name.length > 0 ∧ info.Name.drop 1 ≠ s.Name) := by
      rw [hn]; simp
    have hr := rename_inspected rt s (rt.ServiceCreate w).2 info hg
    rw [if_neg hncond] at hr
    have h1 : Create rt s w
        = { ret := Ret.value none, world := (getContainer rt (rt.ServiceCreate w).2).world,
            calls := Call.ServiceCreate :: (getContainer rt (rt.ServiceCreate w).2).calls } := by
      rw [Create_unfold]
      simp only [hc, hr]
    refine ⟨by rw [h1], ?_, ?_⟩
    · intro a b
      rw [h1]
      simp [getContainer_no_rename rt _ a b]
    · intro a b
      rw [h1]
      simp only
      rw [Create_unfold]
      split
      · simp
      · have hg1 : (getContainer rt (getContainer rt (rt.ServiceCreate w).2).world).ret
            = (some info, none) := by
          rw [hrt.reads, hg]
        have hg2 := hrt.create _ info hg1
        have hr2 := rename_inspected rt s _ info hg2
        rw [if_neg hncond] at hr2
        rw [hr2]
        simp [getContainer_no_rename rt _ a b]

/-- C14 (witness): on the sample runtime `daemon`, whose container is named `/old_web_1`,
the first `rename` for the service `web` issues `RenameContainer(old_web_1, web)` and the
second `rename` issues none. -/
theorem rename_idempotent_witness :
    (rename daemon (web "" "" [] []) (lit "/old_web_1")).calls
        = (getContainer daemon (lit "/old_web_1")).calls
          ++ [Call.Debugf (lit "old_web_1") (web "" "" [] []).Name,
              Call.RenameContainer (lit "old_web_1") (web "" "" [] []).Name]
      ∧ (rename daemon (web "" "" [] [])
          (rename daemon (web "" "" [] []) (lit "/old_web_1")).world).ret = Ret.value none
      ∧ (rename daemon (web "" "" [] [])
          (rename daemon (web "" "" [] []) (lit "/old_web_1")).world).calls
        = [Call.ServiceContainers, Call.Id { handle := 1 }, Call.InspectContainer (lit "c1")] :=
  ⟨((rename_idempotent daemon 47 (web "" "" [] []) (lit "/old_web_1") daemon_converges).1
      { Id := lit "c1", Name := lit "/old_web_1" } (lit "old_web_1")
      (by decide) (by decide) (by decide) (by decide)).1,
   ((rename_idempotent daemon 47 (web "" "" [] []) (lit "/old_web_1") daemon_converges).1
      { Id := lit "c1", Name := lit "/old_web_1" } (lit "old_web_1")
      (by decide) (by decide) (by decide) (by decide)).2.2.1,
   by decide⟩

/-- C15: only the first enumerated container is acted upon.  If two enumerations of the
containers have the same first element (and the same error and leave the same world), then
`getContainer`, `rename` and `wait` have the same outcome on both: the same calls, so the
same identifier inspected, renamed and waited on, the same result and the same world,
whatever the other elements are.  The identifier asked for is that of the first element. -/
theorem first_container_only {σ : Type} (rt : Runtime σ)
    (f : σ → (List Container × Option GoError) × σ) (s : Service) (w : σ)
    (c : Container) (cs1 cs2 : List Container) (err : Option GoError) (w1 : σ)
    (h1 : rt.ServiceContainers w = ((c :: cs1, err), w1))
    (h2 : f w = ((c :: cs2, err), w1)) :
    getContainer { rt with ServiceContainers := f } w = getContainer rt w
      ∧ rename { rt with ServiceContainers := f } s w = rename rt s w
      ∧ wait { rt with ServiceContainers := f } w = wait rt w
      ∧ (err = none →
          (getContainer rt w).calls.take 2 = [Call.ServiceContainers, Call.Id c]) := by
  have hg : getContainer { rt with ServiceContainers := f } w = getContainer rt w := by
    rw [getContainer_unfold, getContainer_unfold]
    simp only [h1, h2]
  refine ⟨hg, ?_, ?_, ?_⟩
  · rw [rename_unfold, rename_unfold, hg]
  · rw [wait_unfold, wait_unfold, hg]
  · intro he
    subst he
    rw [getContainer_unfold]
    simp only [h1]
    split <;> rfl

/-- C15 (witness): the service enumerates the containers 1, 2 and 3 instead of the
container 1 alone; `rename` and `wait` do the same. -/
theorem first_container_only_witness :
    rename { scripted staleName with
        ServiceContainers := fun w => (([{ handle := 1 }, { handle := 2 }, { handle := 3 }],
          none), w + 1) } (web "" "" [] []) 0
        = rename (scripted staleName) (web "" "" [] []) 0
      ∧ wait { scripted staleName with
        ServiceContainers := fun w => (([{ handle := 1 }, { handle := 2 }, { handle := 3 }],
          none), w + 1) } 0
        = wait (scripted staleName) 0 :=
  ⟨(first_container_only (scripted staleName)
      (fun w => (([{ handle := 1 }, { handle := 2 }, { handle := 3 }], none), w + 1))
      (web "" "" [] []) 0 { handle := 1 } [] [{ handle := 2 }, { handle := 3 }] none 1
      rfl rfl).2.1,
   (first_container_only (scripted staleName)
      (fun w => (([{ handle := 1 }, { handle := 2 }, { handle := 3 }], none), w + 1))
      (web "" "" [] []) 0 { handle := 1 } [] [{ handle := 2 }, { handle := 3 }] none 1
      rfl rfl).2.2.1⟩

/-- C16: in `rename` and in `wait` a failure of the enumeration of the containers, of the
retrieval of the identifier or of `InspectContainer` is returned as it is, and the calls
made stop at the failing one: no rename is issued and no wait is started, also when the
failing inspection answers a non-nil container; the result is the error, not nil.  A
failure of `RenameContainer` is returned by `rename` as it is. -/
theorem failures_verbatim {σ : Type} (rt : Runtime σ) (s : Service) (w : σ) (e : GoError) :
    ((rt.ServiceContainers w).1.2 = some e →
        rename rt s w = { ret := Ret.value (some e), world := (rt.ServiceContainers w).2,
                          calls := [Call.ServiceContainers] }
          ∧ wait rt w = { ret := some e, world := (rt.ServiceContainers w).2,
                          calls := [Call.ServiceContainers] })
      ∧ (∀ (c : Container) (cs : List Container),
          (rt.ServiceContainers w).1 = (c :: cs, none) →
          (rt.Id c (rt.ServiceContainers w).2).1.2 = some e →
          rename rt s w = { ret := Ret.value (some e),
                            world := (rt.Id c (rt.ServiceContainers w).2).2,
                            calls := [Call.ServiceContainers, Call.Id c] }
            ∧ wait rt w = { ret := some e, world := (rt.Id c (rt.ServiceContainers w).2).2,
                            calls := [Call.ServiceContainers, Call.Id c] })
      ∧ (∀ (c : Container) (cs : List Container) (id : GoString) (i : Option ContainerInfo),
          (rt.ServiceContainers w).1 = (c :: cs, none) →
          (rt.Id c (rt.ServiceContainers w).2).1 = (id, none) →
          (rt.InspectContainer id (rt.Id c (rt.ServiceContainers w).2).2).1 = (i, some e) →
          rename rt s w
              = { ret := Ret.value (some e),
                  world := (rt.InspectContainer id (rt.Id c (rt.ServiceContainers w).2).2).2,
                  calls := [Call.ServiceContainers, Call.Id c, Call.InspectContainer id] }
            ∧ wait rt w
              = { ret := some e,
                  world := (rt.InspectContainer id (rt.Id c (rt.ServiceContainers w).2).2).2,
                  calls := [Call.ServiceContainers, Call.Id c, Call.InspectContainer id] })
      ∧ (∀ info : ContainerInfo, (getContainer rt w).ret = (some info, none) →
          info.Name ≠ [] → info.Name.drop 1 ≠ s.Name →
          (rt.RenameContainer (info.Name.drop 1) s.Name (getContainer rt w).world).1 = some e →
          (rename rt s w).ret = Ret.value (some e)) := by
  refine ⟨?_, ?_, ?_, ?_⟩
  · intro h
    have hg : getContainer rt w
        = { ret := (none, some e), world := (rt.ServiceContainers w).2,
            calls := [Call.ServiceContainers] } := by
      rw [getContainer_unfold]; simp only [h]
    rw [rename_failed_inspection rt s w none e (by rw [hg]),
      wait_failed_inspection rt w none e (by rw [hg]), hg]
    exact ⟨rfl, rfl⟩
  · intro c cs hc hi
    have hg : getContainer rt w
        = { ret := (none, some e), world := (rt.Id c (rt.ServiceContainers w).2).2,
            calls := [Call.ServiceContainers, Call.Id c] } := by
      rw [getContainer_unfold]; simp only [hc, hi]
    rw [rename_failed_inspection rt s w none e (by rw [hg]),
      wait_failed_inspection rt w none e (by rw [hg]), hg]
    exact ⟨rfl, rfl⟩
  · intro c cs id i hc hi hins
    have hg : getContainer rt w
        = { ret := (i, some e),
            world := (rt.InspectContainer id (rt.Id c (rt.ServiceContainers w).2).2).2,
            calls := [Call.ServiceContainers, Call.Id c, Call.InspectContainer id] } := by
      rw [getContainer_unfold]; simp only [hc, hi, hins]
    rw [rename_failed_inspection rt s w i e (by rw [hg]),
      wait_failed_inspection rt w i e (by rw [hg]), hg]
    exact ⟨rfl, rfl⟩
  · intro info hg hne hd hr
    rw [rename_inspected rt s w info hg]
    have hl : info.Name.length > 0 := List.length_pos.2 hne
    simp only [hl, hd, ne_eq, not_false_eq_true, and_self, if_true, hr]

/-- C16 (witness): a failing enumeration, a failing identifier, a failing inspection and a
failing rename, each returned as it is by `rename`. -/
theorem failures_verbatim_witness :
    (rename (scripted enumerationFails) (web "" "" [] []) 0).ret
        = Ret.value (some (GoError.other 4))
      ∧ (wait (scripted idFails) 0).ret = some (GoError.other 5)
      ∧ (wait (scripted inspectFails) 0).calls
        = [Call.ServiceContainers, Call.Id { handle := 1 }, Call.InspectContainer (lit "c1")]
      ∧ (rename (scripted renameFails) (web "" "" [] []) 0).ret
        = Ret.value (some (GoError.other 2)) :=
  ⟨congrArg Outcome.ret
      ((failures_verbatim (scripted enumerationFails) (web "" "" [] []) 0
        (GoError.other 4)).1 (by decide)).1,
   congrArg Outcome.ret
      ((failures_verbatim (scripted idFails) (web "" "" [] []) 0
        (GoError.other 5)).2.1 { handle := 1 } [] (by decide) (by decide)).2,
   congrArg Outcome.calls
      ((failures_verbatim (scripted inspectFails) (web "" "" [] []) 0
        (GoError.other 6)).2.2.1 { handle := 1 } [] (lit "c1") none
        (by decide) (by decide) (by decide)).2,
   (failures_verbatim (scripted renameFails) (web "" "" [] []) 0
      (GoError.other 2)).2.2.2 { Id := lit "c1", Name := lit "/old_web_1" }
      (by decide) (by decide) (by decide) (by decide)⟩

/-- C17 (counterexample): `web` is system-scoped, has the empty image reference and
declares the dependency `network`; the store has no image.  A relationship named `network`
is appended: the optional one of the declared dependency. -/
theorem empty_image_counterexample :
    (web "" "" systemScope [lit "network"]).Config.Image = lit ""
      ∧ appended (scripted noImage) sampleConstants (web "" "" systemScope [lit "network"]) 0
        = [{ Target := lit "network", Type_ := ServiceRelationshipType.REL_TYPE_LINK,
             Optional := true }]
      ∧ ∃ r ∈ appended (scripted noImage) sampleConstants
            (web "" "" systemScope [lit "network"]) 0, r.Target = lit "network" := by
  decide

/-- C17 (amended): for every system-scoped service whose image reference is the empty
string, `missingImage` returns false without any call to the runtime, so
`DependentServices` makes no `InspectImage` call and appends no non-optional relationship
named `network`, whatever the runtime would answer: what it appends is the optional
relationships of the declared dependencies and the `syslog` relationship if the log driver
is `syslog`. -/
theorem DependentServices_empty_image {σ : Type} (rt : Runtime σ) (cfg : config.Constants)
    (s : Service) (w : σ)
    (hs : index s.Config.Labels cfg.SCOPE = cfg.SYSTEM)
    (hi : s.Config.Image = lit "") :
    (∀ w0, missingImage rt s w0 = { ret := false, world := w0, calls := [] })
      ∧ (DependentServices rt cfg s w).calls = [Call.ServiceDependentServices]
      ∧ appended rt cfg s w
        = (indexSlice s.deps s.Name).map (fun dep =>
            { Target := dep, Type_ := ServiceRelationshipType.REL_TYPE_LINK, Optional := true })
          ++ (if s.Config.LogDriver = lit "syslog" then
                [{ Target := lit "syslog", Type_ := ServiceRelationshipType.REL_TYPE_LINK,
                   Optional := false }] else [])
      ∧ (appended rt cfg s w).filter
          (fun r => decide (r.Target = lit "network" ∧ r.Optional = false)) = [] := by
  have hm : ∀ w0, missingImage rt s w0 = { ret := false, world := w0, calls := [] } := by
    intro w0
    unfold missingImage
    simp only [hi, if_true]
  have hu2 : requiresUserDocker cfg s = false := by simp [requiresUserDocker, hs]
  have hshape : appended rt cfg s w
        = (indexSlice s.deps s.Name).map (fun dep => link dep true)
          ++ (if s.Config.LogDriver = lit "syslog" then [link (lit "syslog") false] else []) := by
    rw [appended_eq, hu2, hm]; simp [requiresSyslog]
  refine ⟨hm, ?_, hshape, ?_⟩
  · unfold DependentServices
    simp [hu2, hm]
  · rw [hshape, List.filter_append, filter_declared _ _ (by intro dep; simp [link])]
    by_cases hl : s.Config.LogDriver = lit "syslog" <;>
      simp [hl, link, NewServiceRelationship, List.filter_cons, syslog_ne_network]

/-- C17 (witness): `web`, system scope, empty image reference, on a runtime whose store
has no image. -/
theorem DependentServices_empty_image_witness :
    ((scripted noImage).InspectImage (lit "") 1).1 = (none, none)
      ∧ (DependentServices (scripted noImage) sampleConstants
          (web "" "" systemScope []) 0).calls = [Call.ServiceDependentServices]
      ∧ appended (scripted noImage) sampleConstants (web "" "" systemScope []) 0 = [] :=
  ⟨by decide,
   (DependentServices_empty_image (scripted noImage) sampleConstants
      (web "" "" systemScope []) 0 (by decide) (by decide)).2.1,
   by decide⟩

end docker
